import Mathlib

/-!
A verification development for the EcoForge carbon-footprint analysis
pipeline.  The Python source (agents/transport_expert.py, agents/diet_expert.py,
agents/synthesizer.py, agents/refiner_loop.py, agents/evaluator.py and
workflow.py) is embedded shallowly:

* Python floats are modelled as exact rationals (`ℚ`); `round(x, k)` is
  modelled as round-half-to-even on rationals (`pyRound`), which agrees with
  CPython on the values appearing in the theorems below.
* Python dicts that travel between the pipeline stages are modelled as
  structures whose optional keys are `Option` fields (`none` = key absent);
  `d.get(k, v)` becomes `field.getD v`.
* `re.findall(r'(\d+(?:\.\d+)?)', s)` is modelled by `scanNums`, a direct
  scanner for that regular expression.
* Python's stable `sorted(key=k, reverse=True)` is modelled by
  `List.insertionSort` with the relation `k b ≤ k a` (any two stable sorts
  for a total preorder agree).
* The in-place mutation of intervention dicts shared between the refiner's
  input and its working copy (`synthesis.copy()` is shallow) is modelled
  explicitly: the refiner state keeps the caller's list (`inputs`) and the
  working plan as cells that are either `shared i` (the very dict at input
  position `i`) or `fresh v` (a dict allocated by the refiner).
-/

/- Batteries marks the rational-number field operations `@[irreducible]`,
which stops `decide` from evaluating concrete rational arithmetic (the kernel
itself reduces them fine).  The model below is executable throughout, and its
concrete evaluations in witnesses and counterexamples go through `decide`, so
restore the ordinary reducibility of these operations. -/
set_option allowUnsafeReducibility true
attribute [semireducible] Rat.ofScientific Rat.mul Rat.inv Rat.add Rat.sub

/-! ## String utilities (Python substring tests, `.lower()`, the number regex) -/

/-- `isPrefixL p l`: the char list `p` is a prefix of `l`. -/
def isPrefixL : List Char → List Char → Bool
  | [], _ => true
  | _ :: _, [] => false
  | a :: as, b :: bs => a == b && isPrefixL as bs

/-- `containsL pat l`: Python's `pat in l` substring test on char lists. -/
def containsL (pat : List Char) : List Char → Bool
  | [] => isPrefixL pat []
  | b :: bs => isPrefixL pat (b :: bs) || containsL pat bs

/-- Python `pat in s` on strings. -/
def strContains (s pat : String) : Bool := containsL pat.toList s.toList

/-- Python `s.lower()` as a char list (the source only lowercases ASCII). -/
def lowerChars (s : String) : List Char := s.toList.map Char.toLower

/-- Python `pat in s.lower()` where `pat` is already lowercase. -/
def lowerContains (s pat : String) : Bool := containsL pat.toList (lowerChars s)

/-- Python `any(kw in s.lower() for kw in kws)`. -/
def anyKw (s : String) (kws : List String) : Bool := kws.any (lowerContains s)

/-- Numeric value of a run of decimal digits. -/
def natOfDigits (ds : List Char) : ℕ := ds.foldl (fun n c => 10 * n + (c.toNat - 48)) 0

/-- Value of a decimal literal with integer part `ip` and fractional part `fp`. -/
def decimalVal (ip fp : List Char) : ℚ := (natOfDigits ip : ℚ) + (natOfDigits fp : ℚ) / 10 ^ fp.length

/-- One left-to-right pass of `re.findall(r'(\d+(?:\.\d+)?)', s)`, returning the
matched numbers as rationals.  `fuel` bounds the recursion; each step consumes
at least one character, so `fuel = length` is exact. -/
def scanNumsAux : ℕ → List Char → List ℚ
  | 0, _ => []
  | _, [] => []
  | fuel + 1, c :: rest =>
    if c.isDigit then
      let ds := List.takeWhile Char.isDigit (c :: rest)
      let r1 := List.dropWhile Char.isDigit (c :: rest)
      if r1.headD ' ' = '.' ∧ (r1.tail.headD ' ').isDigit then
        let fs := List.takeWhile Char.isDigit r1.tail
        let r3 := List.dropWhile Char.isDigit r1.tail
        decimalVal ds fs :: scanNumsAux fuel r3
      else (natOfDigits ds : ℚ) :: scanNumsAux fuel r1
    else scanNumsAux fuel rest

/-- All numbers found in a string by the source's shared regular expression
`r'(\d+(?:\.\d+)?)'`. -/
def scanNums (s : String) : List ℚ := scanNumsAux s.toList.length s.toList

/-! ## Python `round` (half to even) on rationals -/

/-- Round half to even to an integer (CPython `round` tie behaviour). -/
def roundHalfEven (q : ℚ) : ℤ :=
  if q - ⌊q⌋ < 1 / 2 then ⌊q⌋
  else if q - ⌊q⌋ > 1 / 2 then ⌊q⌋ + 1
  else if Even ⌊q⌋ then ⌊q⌋ else ⌊q⌋ + 1

/-- Python `round(q, k)` for `k ≥ 0`, on exact rationals. -/
def pyRound (k : ℕ) (q : ℚ) : ℚ := (roundHalfEven (q * 10 ^ k) : ℚ) / 10 ^ k

theorem roundHalfEven_eq_lo (q : ℚ) (f : ℤ) (h1 : (f : ℚ) ≤ q) (h2 : q < f + 1 / 2) :
    roundHalfEven q = f := by
  have hf : ⌊q⌋ = f := Int.floor_eq_iff.mpr ⟨h1, by linarith⟩
  unfold roundHalfEven
  rw [hf, if_pos (by push_cast; linarith)]

theorem roundHalfEven_eq_hi (q : ℚ) (f : ℤ) (h1 : (f : ℚ) + 1 / 2 < q) (h2 : q < f + 1) :
    roundHalfEven q = f + 1 := by
  have hf : ⌊q⌋ = f := Int.floor_eq_iff.mpr ⟨by linarith, h2⟩
  unfold roundHalfEven
  rw [hf, if_neg (by push_cast; linarith), if_pos (by push_cast; linarith)]

theorem pyRound_eq_lo (k : ℕ) (q : ℚ) (f : ℤ) (h1 : (f : ℚ) ≤ q * 10 ^ k)
    (h2 : q * 10 ^ k < f + 1 / 2) : pyRound k q = (f : ℚ) / 10 ^ k := by
  unfold pyRound
  rw [roundHalfEven_eq_lo _ f h1 h2]

theorem pyRound_eq_hi (k : ℕ) (q : ℚ) (f : ℤ) (h1 : (f : ℚ) + 1 / 2 < q * 10 ^ k)
    (h2 : q * 10 ^ k < f + 1) : pyRound k q = ((f : ℚ) + 1) / 10 ^ k := by
  unfold pyRound
  rw [roundHalfEven_eq_hi _ f h1 h2]
  push_cast
  ring

theorem floor_le_roundHalfEven (q : ℚ) : ⌊q⌋ ≤ roundHalfEven q := by
  unfold roundHalfEven
  split_ifs <;> omega

theorem roundHalfEven_le_floor_add_one (q : ℚ) : roundHalfEven q ≤ ⌊q⌋ + 1 := by
  unfold roundHalfEven
  split_ifs <;> omega

theorem roundHalfEven_mono {q r : ℚ} (h : q ≤ r) : roundHalfEven q ≤ roundHalfEven r := by
  rcases lt_or_eq_of_le (Int.floor_mono h) with hf | hf
  · calc roundHalfEven q ≤ ⌊q⌋ + 1 := roundHalfEven_le_floor_add_one q
      _ ≤ ⌊r⌋ := hf
      _ ≤ roundHalfEven r := floor_le_roundHalfEven r
  · unfold roundHalfEven
    rw [hf]
    split_ifs <;> first
      | omega
      | (exfalso; push_cast at *; linarith [Int.floor_le q, Int.floor_le r])

theorem roundHalfEven_add_even (q : ℚ) (m : ℤ) :
    roundHalfEven (q + (2 * m : ℤ)) = roundHalfEven q + 2 * m := by
  have hf : ⌊q + ((2 * m : ℤ) : ℚ)⌋ = ⌊q⌋ + 2 * m := Int.floor_add_int q (2 * m)
  have hpar : Even (⌊q⌋ + 2 * m) ↔ Even ⌊q⌋ := by
    constructor
    · intro he
      have := he.sub (even_two_mul m)
      simpa using this
    · intro he
      exact he.add (even_two_mul m)
  have hfr : q + ((2 * m : ℤ) : ℚ) - ((⌊q⌋ + 2 * m : ℤ) : ℚ) = q - ⌊q⌋ := by
    push_cast
    ring
  unfold roundHalfEven
  rw [hf]
  rw [show ((⌊q⌋ + 2 * m : ℤ) : ℚ) = ((⌊q⌋ : ℚ) + ((2 * m : ℤ) : ℚ)) by push_cast; ring] at *
  split_ifs with a1 a2 a3 b1 b2 b3 <;>
    first
      | omega
      | (exfalso; push_cast at *; linarith)
      | (exfalso; rw [hpar] at *; tauto)

theorem roundHalfEven_nonneg {q : ℚ} (h : 0 ≤ q) : 0 ≤ roundHalfEven q := by
  have : (0 : ℤ) ≤ ⌊q⌋ := Int.floor_nonneg.mpr h
  have := floor_le_roundHalfEven q
  omega

theorem roundHalfEven_le_int {q : ℚ} {n : ℤ} (h : q ≤ n) : roundHalfEven q ≤ n := by
  rcases lt_or_eq_of_le (Int.floor_mono h) with hf | hf
  · have := roundHalfEven_le_floor_add_one q
    simp only [Int.floor_intCast] at hf
    omega
  · have hq : q = n := le_antisymm h (by
      have h2 := Int.floor_le q
      rw [hf, Int.floor_intCast] at h2
      exact_mod_cast h2)
    subst hq
    have hfl : ⌊(n : ℚ)⌋ = n := Int.floor_intCast n
    unfold roundHalfEven
    rw [hfl]
    have hz : (n : ℚ) - (n : ℚ) = 0 := by ring
    rw [hz, if_pos (by norm_num)]

theorem pyRound_nonneg {k : ℕ} {q : ℚ} (h : 0 ≤ q) : 0 ≤ pyRound k q := by
  unfold pyRound
  have h10 : (0 : ℚ) < 10 ^ k := by positivity
  have : (0 : ℤ) ≤ roundHalfEven (q * 10 ^ k) :=
    roundHalfEven_nonneg (by positivity)
  positivity

theorem pyRound_le_int {k : ℕ} {q : ℚ} {n : ℤ} (h : q ≤ n) : pyRound k q ≤ n := by
  unfold pyRound
  have h10 : (0 : ℚ) < 10 ^ k := by positivity
  have hle : roundHalfEven (q * 10 ^ k) ≤ n * 10 ^ k := by
    apply roundHalfEven_le_int
    push_cast
    calc q * 10 ^ k ≤ (n : ℚ) * 10 ^ k := by
          apply mul_le_mul_of_nonneg_right h (le_of_lt h10)
      _ = _ := by push_cast; ring
  rw [div_le_iff h10]
  calc ((roundHalfEven (q * 10 ^ k) : ℤ) : ℚ) ≤ ((n * 10 ^ k : ℤ) : ℚ) := by exact_mod_cast hle
    _ = (n : ℚ) * 10 ^ k := by push_cast; ring

theorem pyRound_mono {k : ℕ} {q r : ℚ} (h : q ≤ r) : pyRound k q ≤ pyRound k r := by
  unfold pyRound
  have h10 : (0 : ℚ) < 10 ^ k := by positivity
  have hle := roundHalfEven_mono (mul_le_mul_of_nonneg_right h (le_of_lt h10))
  have hc : ((roundHalfEven (q * 10 ^ k) : ℤ) : ℚ) ≤ ((roundHalfEven (r * 10 ^ k) : ℤ) : ℚ) :=
    Int.cast_le.mpr hle
  rw [div_le_div_iff h10 h10]
  nlinarith [hc]

/-! ## A stable descending sort by a rational key (Python `sorted(key, reverse=True)`) -/

/-- Stable descending sort by key `k`: the model of Python's
`sorted(xs, key=k, reverse=True)` (any two stable sorts for a total preorder
agree on every input). -/
def sortDescBy {α : Type} (k : α → ℚ) (l : List α) : List α :=
  @List.insertionSort α (fun a b => k b ≤ k a) (fun a b => inferInstanceAs (Decidable (k b ≤ k a))) l

theorem sortDescBy_perm {α : Type} (k : α → ℚ) (l : List α) : (sortDescBy k l).Perm l :=
  List.perm_insertionSort _ l

theorem sortDescBy_sorted {α : Type} (k : α → ℚ) (l : List α) :
    (sortDescBy k l).Sorted (fun a b => k b ≤ k a) := by
  haveI : IsTotal α (fun a b => k b ≤ k a) := ⟨fun a b => le_total (k b) (k a)⟩
  haveI : IsTrans α (fun a b => k b ≤ k a) := ⟨fun _ _ _ h1 h2 => le_trans h2 h1⟩
  exact List.sorted_insertionSort _ l

/-- An element that strictly dominates every other element of `l` under the key
is among the first `n` (`n > 0`) elements of the descending sort. -/
theorem mem_take_sortDescBy_of_strict_max {α : Type} (k : α → ℚ) (l : List α) (x : α)
    (hx : x ∈ l) (hmax : ∀ y ∈ l, y ≠ x → k y < k x) {n : ℕ} (hn : 0 < n) :
    x ∈ (sortDescBy k l).take n := by
  have hperm := sortDescBy_perm k l
  have hxs : x ∈ sortDescBy k l := hperm.mem_iff.mpr hx
  rcases hs : sortDescBy k l with _ | ⟨y, ys⟩
  · rw [hs] at hxs
    simp at hxs
  · rw [hs] at hxs hperm
    have hsorted := sortDescBy_sorted k l
    rw [hs, List.sorted_cons] at hsorted
    have hyx : y = x := by
      by_contra hne
      have hyl : y ∈ l := hperm.mem_iff.mp (by simp)
      have h1 : k y < k x := hmax y hyl hne
      have hxys : x ∈ ys := by
        rcases List.mem_cons.mp hxs with h | h
        · exact absurd h.symm hne
        · exact h
      have h2 : k x ≤ k y := hsorted.1 x hxys
      linarith
    subst hyx
    rw [List.take_cons hn]
    simp

/-! ## Last element of a sorted list is its maximum -/

theorem getLastD_mem {α : Type} : ∀ (l : List α) (d : α), l ≠ [] → l.getLastD d ∈ l
  | [], _, h => absurd rfl h
  | [a], d, _ => by simp
  | a :: b :: t, d, _ => by
    rw [List.getLastD_cons]
    exact List.mem_cons_of_mem a (getLastD_mem (b :: t) a (by simp))

theorem le_getLastD_of_sorted :
    ∀ (l : List ℚ) (d : ℚ), l.Sorted (· ≤ ·) → ∀ x ∈ l, x ≤ l.getLastD d
  | [], _, _, x, hx => absurd hx (by simp)
  | a :: t, d, hs, x, hx => by
    rw [List.sorted_cons] at hs
    rw [List.getLastD_cons]
    rcases List.mem_cons.mp hx with h | h
    · subst h
      rcases ht : t with _ | ⟨b, t'⟩
      · simp
      · rw [← ht]
        have : t.getLastD x ∈ t := getLastD_mem t x (by rw [ht]; simp)
        exact hs.1 _ this
    · exact le_getLastD_of_sorted t a hs.2 x h

/-! ## Shared pipeline data model -/

/-- A recommendation / intervention dict.  Every key that any pipeline stage
reads or writes is a field; `none` models an absent key. -/
structure Intervention where
  action : Option String := none
  impact : Option String := none
  priority : Option String := none
  co2_reduction : Option String := none
  cost_impact : Option String := none
  cost : Option String := none
  nutrition_impact : Option String := none
  feasibility : Option String := none
  urgency : Option String := none
  domain : Option String := none
  synergy_multiplier : Option ℚ := none
  implementation_tips : Option (List String) := none
  success_criteria : Option (List String) := none
  timeline : Option String := none
  resources_needed : Option (List String) := none
deriving DecidableEq, Repr, Inhabited

/-- A synergy dict produced by the synthesizer. -/
structure Synergy where
  type : String
  domains : List String
  description : String
  synergy_multiplier : ℚ
  combined_impact : String
  implementation_order : List String
deriving DecidableEq, Repr

/-- `transport_patterns` (transport_expert._analyze_transport_patterns). -/
structure TransportPatterns where
  primary_vehicle : String := "sedan"
  daily_distance : ℚ := 30
  weekly_flights : ℚ := 0
  flight_distance : ℚ := 0
  public_transport_usage : String := "low"
  walking_biking : String := "low"
  luxury_transport : Bool := false
deriving DecidableEq, Repr

/-- `dietary_patterns` (diet_expert._analyze_dietary_patterns). -/
structure DietaryPatterns where
  diet_type : String := "omnivore"
  meat_frequency : String := "daily"
  meat_types : List String := []
  dairy_consumption : String := "medium"
  local_food : String := "low"
  organic_preference : Bool := false
  meal_frequency : ℚ := 3
  luxury_foods : Bool := false
deriving DecidableEq, Repr

/-- `energy_patterns` (home_expert._analyze_energy_patterns). -/
structure EnergyPatterns where
  home_size : String := "medium"
  heating_type : String := "gas"
  cooling_usage : String := "medium"
  appliance_efficiency : String := "standard"
  lighting_type : String := "mixed"
  insulation_quality : String := "average"
  renewable_energy : Bool := false
deriving DecidableEq, Repr

/-- `shopping_patterns` (shopping_expert._analyze_shopping_patterns). -/
structure ShoppingPatterns where
  shopping_frequency : String := "weekly"
  luxury_purchases : Bool := false
  fast_fashion : Bool := false
  electronics_upgrade_cycle : String := "3-5 years"
  second_hand_preference : Bool := false
  brand_consciousness : String := "medium"
  impulse_buying : String := "medium"
  bulk_buying : Bool := false
  online_vs_physical : String := "mixed"
deriving DecidableEq, Repr

/-- A domain expert's analysis dict, as the synthesizer and the workflow's
fan-in read it.  Each expert fills the fields it produces; keys an expert does
not emit stay `none` (notably the transport expert emits no
`recommendations` key at all, so the synthesizer's
`analysis.get("recommendations", [])` yields `[]` for it). -/
structure DomainAnalysisR where
  agent_id : Option String := none
  carbon_footprint : Option ℚ := none
  efficiency_score : Option ℚ := none
  key_findings : Option (List String) := none
  recommendations : Option (List Intervention) := none
  energy_patterns : Option EnergyPatterns := none
  transport_patterns : Option TransportPatterns := none
  dietary_patterns : Option DietaryPatterns := none
  shopping_patterns : Option ShoppingPatterns := none
deriving DecidableEq, Repr

/-- The fan-in result: one analysis per domain, in the workflow's insertion
order home, transport, diet, shopping. -/
structure Analyses where
  home : DomainAnalysisR
  transport : DomainAnalysisR
  diet : DomainAnalysisR
  shopping : DomainAnalysisR
deriving DecidableEq, Repr

/-- `agent_analyses.items()` in the dict's insertion order. -/
def analysesList (a : Analyses) : List (String × DomainAnalysisR) :=
  [("home", a.home), ("transport", a.transport), ("diet", a.diet), ("shopping", a.shopping)]

/-! ## Transport expert (agents/transport_expert.py) -/

/-- `self.emission_factors.get(v, 0.18)` (kg CO2 per km). -/
def emission_factors (v : String) : ℚ :=
  if v = "private_jet" then 2.5
  else if v = "helicopter" then 1.8
  else if v = "luxury_car" then 0.35
  else if v = "suv" then 0.25
  else if v = "sedan" then 0.18
  else if v = "hybrid" then 0.12
  else if v = "electric" then 0.05
  else if v = "motorcycle" then 0.15
  else if v = "bus" then 0.08
  else if v = "train" then 0.04
  else if v = "bike" then 0
  else if v = "walk" then 0
  else 0.18

/-- The `vehicle_keywords` dict of `_analyze_transport_patterns`, in its
insertion (iteration) order. -/
def vehicle_keywords : List (String × List String) :=
  [("private_jet", ["private jet", "jet", "private plane"]),
   ("helicopter", ["helicopter", "chopper"]),
   ("luxury_car", ["luxury car", "ferrari", "lamborghini", "porsche", "bentley", "rolls royce"]),
   ("suv", ["suv", "v8", "v12", "truck", "pickup"]),
   ("hybrid", ["hybrid", "prius", "camry hybrid"]),
   ("electric", ["tesla", "electric car", "ev", "electric vehicle"]),
   ("motorcycle", ["motorcycle", "bike", "motorbike"]),
   ("sedan", ["car", "sedan", "drive"])]

/-- First match of `re.findall(r'(\d+)\s*(km|mile|miles)', s)`: the distance
value and whether the unit is miles.  `fuel` bounds the scan as in
`scanNumsAux`. -/
def findDistanceAux : ℕ → List Char → Option (ℕ × Bool)
  | 0, _ => none
  | _, [] => none
  | fuel + 1, c :: rest =>
    if c.isDigit then
      let ds := List.takeWhile Char.isDigit (c :: rest)
      let r1 := List.dropWhile Char.isDigit (c :: rest)
      let r2 := r1.dropWhile Char.isWhitespace
      if isPrefixL "km".toList r2 then some (natOfDigits ds, false)
      else if isPrefixL "mile".toList r2 then some (natOfDigits ds, true)
      else findDistanceAux fuel r1
    else findDistanceAux fuel rest

/-- `_analyze_transport_patterns`. -/
def analyze_transport_patterns (user_input : String) : TransportPatterns :=
  let t := lowerChars user_input
  let has := fun (kw : String) => containsL kw.toList t
  let vehicle :=
    match vehicle_keywords.find? (fun p => p.2.any (fun kw => containsL kw.toList t)) with
    | some p => p.1
    | none => "sedan"
  let flights : ℚ × ℚ :=
    if ["fly", "flight", "airplane", "plane", "travel"].any (fun kw => containsL kw.toList t) then
      if has "daily" then (7, 1000)
      else if has "weekly" then (1, 2000)
      else if has "private jet" then (2, 3000)
      else (0, 0)
    else (0, 0)
  let distance : ℚ :=
    match findDistanceAux t.length t with
    | some (d, isMile) => if isMile then (d : ℚ) * 1.6 else (d : ℚ)
    | none => 30
  { primary_vehicle := vehicle
    daily_distance := distance
    weekly_flights := flights.1
    flight_distance := flights.2
    luxury_transport := ["luxury", "private", "exclusive", "premium", "first class"].any
      (fun kw => containsL kw.toList t) }

/-- The `annual_vehicle_emissions` term of
`_calculate_transport_carbon_footprint` (tons CO2/year). -/
def annual_vehicle_emissions (p : TransportPatterns) : ℚ :=
  p.daily_distance * emission_factors p.primary_vehicle * 365 / 1000

/-- `_calculate_transport_carbon_footprint`. -/
def calculate_transport_carbon_footprint (p : TransportPatterns) : ℚ :=
  let flight_emission_factor : ℚ := if p.primary_vehicle = "private_jet" then 2.5 else 0.25
  let annual_flight_emissions := p.weekly_flights * p.flight_distance * flight_emission_factor * 52 / 1000
  pyRound 2 (annual_vehicle_emissions p + annual_flight_emissions)

/-- The `vehicle_scores` table of `_calculate_transport_efficiency`
(default 0.4). -/
def vehicle_scores (v : String) : ℚ :=
  if v = "walk" then 1 else if v = "bike" then 1
  else if v = "electric" then 0.9 else if v = "hybrid" then 0.7
  else if v = "train" then 0.8 else if v = "bus" then 0.6
  else if v = "sedan" then 0.4 else if v = "suv" then 0.2
  else if v = "luxury_car" then 0.1 else if v = "private_jet" then 0
  else if v = "helicopter" then 0 else 0.4

/-- `_calculate_transport_efficiency`. -/
def calculate_transport_efficiency (p : TransportPatterns) : ℚ :=
  let score := vehicle_scores p.primary_vehicle
  let score := if p.daily_distance > 100 then score * 0.5
    else if p.daily_distance > 50 then score * 0.7 else score
  let score := if p.weekly_flights > 0 then score * 0.3 else score
  max 0 (min 1 score)

/-- `_extract_key_findings` of the transport expert. -/
def transport_key_findings (p : TransportPatterns) (carbon_footprint : ℚ) : List String :=
  (if carbon_footprint > 10 then ["Extremely high transport emissions detected"]
   else if carbon_footprint > 5 then ["High transport emissions - major improvement potential"]
   else []) ++
  (if p.primary_vehicle = "private_jet" ∨ p.primary_vehicle = "helicopter" then
    ["Ultra-luxury transport with massive carbon impact"] else []) ++
  (if p.weekly_flights > 1 then ["Frequent flying is primary emissions source"] else []) ++
  (if p.daily_distance > 100 then ["Excessive daily travel distance"] else [])

/-- The analysis dict returned by the transport expert's `analyze` (the
location-keyed mock tables `local_options`, `route_optimizations` and
`alternatives` are not modelled; no downstream stage reads them.  Note the
dict carries no `recommendations` key). -/
def transport_analyze (user_input : String) : DomainAnalysisR :=
  let p := analyze_transport_patterns user_input
  let cf := calculate_transport_carbon_footprint p
  { agent_id := some "transport_racer_002"
    carbon_footprint := some cf
    transport_patterns := some p
    efficiency_score := some (calculate_transport_efficiency p)
    key_findings := some (transport_key_findings p cf) }

/-! ## Diet expert (agents/diet_expert.py) -/

/-- `_analyze_dietary_patterns`. -/
def analyze_dietary_patterns (user_input : String) : DietaryPatterns :=
  let t := lowerChars user_input
  let hasAny := fun (kws : List String) => kws.any (fun kw => containsL kw.toList t)
  let diet_type :=
    if hasAny ["vegan", "plant-based", "no animal products"] then "vegan"
    else if hasAny ["vegetarian", "no meat", "plant diet"] then "vegetarian"
    else if hasAny ["pescatarian", "fish only", "no meat except fish"] then "pescatarian"
    else if hasAny ["meat", "everything", "omnivore"] then "omnivore"
    else "omnivore"
  let meat_types :=
    (if hasAny ["beef", "steak", "wagyu", "hamburger", "burger"] then ["beef"] else []) ++
    (if hasAny ["pork", "bacon", "ham", "sausage"] then ["pork"] else []) ++
    (if hasAny ["chicken", "poultry", "turkey"] then ["chicken"] else []) ++
    (if hasAny ["lamb", "mutton"] then ["lamb"] else []) ++
    (if hasAny ["fish", "salmon", "tuna", "seafood"] then ["fish"] else [])
  let meat_frequency :=
    if hasAny ["daily", "every day", "each day"] then "daily"
    else if hasAny ["weekly", "few times a week", "several times"] then "weekly"
    else if hasAny ["monthly", "rarely", "occasionally"] then "monthly"
    else "daily"
  { diet_type := diet_type
    meat_frequency := meat_frequency
    meat_types := meat_types
    luxury_foods := hasAny ["wagyu", "caviar", "truffle", "premium", "expensive", "fine dining"]
    organic_preference := hasAny ["local", "organic", "farm-to-table", "sustainable", "farmers market"] }

/-- `self.food_emissions` entries used by the footprint calculation. -/
def food_emissions (f : String) : ℚ :=
  if f = "beef" then 60 else if f = "pork" then 7.2 else if f = "chicken" then 6.9
  else if f = "fish" then 6.1 else if f = "milk" then 3.2
  else if f = "vegetables" then 0.4 else if f = "fruits" then 0.3
  else if f = "wheat" then 1.4 else 6

/-- `_calculate_diet_carbon_footprint`. -/
def calculate_diet_carbon_footprint (p : DietaryPatterns) : ℚ :=
  let veg := p.diet_type = "vegan" ∨ p.diet_type = "vegetarian" ∨ p.diet_type = "pescatarian"
  let base : String → ℚ := fun f =>
    if f = "beef" then (if veg then 0 else 20)
    else if f = "pork" then (if veg then 0 else 15)
    else if f = "chicken" then (if veg then 0 else 25)
    else if f = "fish" then (if p.diet_type = "vegan" then 0 else 15)
    else if f = "dairy" then (if p.diet_type = "vegan" then 0 else 100)
    else if f = "vegetables" then 150
    else if f = "fruits" then 80
    else 120
  let meat_multiplier : ℚ :=
    if p.meat_frequency = "daily" then 1.5
    else if p.meat_frequency = "weekly" then 1
    else if p.meat_frequency = "monthly" then 0.3 else 1
  let meatPart : String → ℚ := fun f =>
    if f ∈ p.meat_types then
      (base f * meat_multiplier * (if p.luxury_foods ∧ f = "beef" then 2 else 1)) * food_emissions f
    else 0
  let fishPart : ℚ :=
    if p.diet_type ≠ "vegan" then
      (base "fish" * (if "fish" ∈ p.meat_types then 1.5 else 1)) * food_emissions "fish"
    else 0
  let dairyPart : ℚ := if p.diet_type ≠ "vegan" then base "dairy" * food_emissions "milk" else 0
  let organicMul : ℚ := if p.organic_preference then 0.8 else 1
  let plantPart : ℚ :=
    base "vegetables" * organicMul * food_emissions "vegetables" +
    base "fruits" * organicMul * food_emissions "fruits"
  let grainPart : ℚ := base "grains" * food_emissions "wheat"
  pyRound 2 ((meatPart "beef" + meatPart "pork" + meatPart "chicken" +
    fishPart + dairyPart + plantPart + grainPart) / 1000)

/-- `_calculate_diet_efficiency`. -/
def calculate_diet_efficiency (p : DietaryPatterns) : ℚ :=
  let score : ℚ :=
    if p.diet_type = "vegan" then 0.9 else if p.diet_type = "vegetarian" then 0.7
    else if p.diet_type = "pescatarian" then 0.6 else if p.diet_type = "omnivore" then 0.3
    else 0.3
  let score := score +
    (if p.diet_type = "omnivore" then
      (if p.meat_frequency = "daily" then 0 else if p.meat_frequency = "weekly" then 0.2
       else if p.meat_frequency = "monthly" then 0.4 else 0)
     else 0)
  let score := score + (if p.organic_preference then 0.1 else 0)
  let score := score - (if p.luxury_foods then 0.2 else 0)
  max 0 (min 1 score)

/-- `_generate_dietary_recommendations` (its `local_sourcing` and
`nutritional_analysis` arguments are never read). -/
def generate_dietary_recommendations (p : DietaryPatterns) : List Intervention :=
  (if p.diet_type = "omnivore" ∧ p.meat_frequency = "daily" then
    [{ action := some "Reduce meat consumption to 3-4 times per week",
       impact := some "Reduce diet emissions by 30-40%",
       nutrition_impact := some "Maintain protein with legumes and fish",
       priority := some "high", co2_reduction := some "1-2 tons/year" }] else []) ++
  (if "beef" ∈ p.meat_types then
    [{ action := some "Replace beef with chicken or plant proteins",
       impact := some "Reduce diet emissions by 50-70%",
       nutrition_impact := some "Similar protein content, lower saturated fat",
       priority := some "high", co2_reduction := some "2-4 tons/year" }] else []) ++
  (if ¬p.organic_preference then
    [{ action := some "Choose local and seasonal produce",
       impact := some "Reduce transport emissions by 20-30%",
       nutrition_impact := some "Fresher nutrients, seasonal variety",
       priority := some "medium", co2_reduction := some "0.3-0.8 tons/year" }] else []) ++
  [{ action := some "Implement 2-3 plant-based days per week",
     impact := some "Reduce weekly diet emissions by 25-35%",
     nutrition_impact := some "Increase fiber and antioxidants",
     priority := some "medium", co2_reduction := some "0.8-1.5 tons/year" }]

/-- `_extract_key_findings` of the diet expert. -/
def diet_key_findings (p : DietaryPatterns) (carbon_footprint : ℚ) : List String :=
  (if carbon_footprint > 4 then ["High-impact diet with significant reduction potential"] else []) ++
  (if "beef" ∈ p.meat_types ∧ p.meat_frequency = "daily" then
    ["Daily beef consumption is primary diet emission source"] else []) ++
  (if p.luxury_foods then ["Luxury food choices significantly increase carbon impact"] else []) ++
  (if p.diet_type = "vegan" ∨ p.diet_type = "vegetarian" then
    ["Plant-based diet provides excellent carbon efficiency"] else [])

/-- The analysis dict returned by the diet expert's `analyze` (the
location-keyed `local_sourcing` mock table and the `nutritional_analysis`
block are not modelled; no downstream stage reads them). -/
def diet_analyze (user_input : String) : DomainAnalysisR :=
  let p := analyze_dietary_patterns user_input
  let cf := calculate_diet_carbon_footprint p
  { agent_id := some "diet_shaman_003"
    carbon_footprint := some cf
    dietary_patterns := some p
    recommendations := some (generate_dietary_recommendations p)
    efficiency_score := some (calculate_diet_efficiency p)
    key_findings := some (diet_key_findings p cf) }

/-! ## Synthesizer (agents/synthesizer.py) -/

/-- `self.domain_weights.get(domain, 0.25)`. -/
def domain_weights (d : String) : ℚ :=
  if d = "home" then 0.25 else if d = "transport" then 0.35
  else if d = "diet" then 0.25 else if d = "shopping" then 0.15 else 0.25

/-- `_calculate_total_footprint`. -/
def calculate_total_footprint (a : Analyses) : ℚ :=
  pyRound 2 (((analysesList a).map (fun p => p.2.carbon_footprint.getD 0)).sum)

/-- `_assess_improvement_potential`. -/
def assess_improvement_potential (analysis : DomainAnalysisR) : String :=
  let efficiency := analysis.efficiency_score.getD 0.5
  let carbon_footprint := analysis.carbon_footprint.getD 0
  if efficiency < 0.3 ∨ carbon_footprint > 5 then "high"
  else if efficiency < 0.6 ∨ carbon_footprint > 2 then "medium"
  else "low"

/-- One domain's entry of `_get_domain_breakdown`. -/
structure DomainBreakdown where
  carbon_footprint : ℚ
  efficiency_score : ℚ
  key_findings : List String
  improvement_potential : String
deriving DecidableEq, Repr

/-- `_get_domain_breakdown`. -/
def get_domain_breakdown (a : Analyses) : List (String × DomainBreakdown) :=
  (analysesList a).map (fun p =>
    (p.1, { carbon_footprint := p.2.carbon_footprint.getD 0
            efficiency_score := p.2.efficiency_score.getD 0.5
            key_findings := p.2.key_findings.getD []
            improvement_potential := assess_improvement_potential p.2 }))

/-- The three synergy records `_identify_synergies` can emit. -/
def evSolarSynergy : Synergy :=
  { type := "home_transport_ev_solar"
    domains := ["home", "transport"]
    description := "Solar panels + Electric vehicle combo"
    synergy_multiplier := 1.5
    combined_impact := "Reduce both home and transport emissions by 80%+"
    implementation_order := ["home_solar", "transport_ev"] }

def dietShoppingSynergy : Synergy :=
  { type := "diet_shopping_local_circular"
    domains := ["diet", "shopping"]
    description := "Local food sourcing + Circular economy practices"
    synergy_multiplier := 1.3
    combined_impact := "Reduce supply chain emissions across consumption"
    implementation_order := ["local_food", "circular_shopping"] }

def transportShoppingSynergy : Synergy :=
  { type := "transport_shopping_consolidation"
    domains := ["transport", "shopping"]
    description := "Consolidated shopping trips + Alternative transport"
    synergy_multiplier := 1.4
    combined_impact := "Reduce transport needs and optimize shopping patterns"
    implementation_order := ["consolidate_shopping", "alternative_transport"] }

/-- `_identify_synergies`. -/
def identify_synergies (a : Analyses) : List Synergy :=
  (if ¬(a.home.energy_patterns.map EnergyPatterns.renewable_energy).getD false ∧
      (a.transport.transport_patterns.map TransportPatterns.primary_vehicle).getD "sedan" ∈
        (["sedan", "suv", "luxury_car"] : List String) then
    [evSolarSynergy] else []) ++
  (if ¬(a.diet.dietary_patterns.map DietaryPatterns.organic_preference).getD false ∨
      ¬(a.shopping.shopping_patterns.map ShoppingPatterns.second_hand_preference).getD false then
    [dietShoppingSynergy] else []) ++
  (if a.transport.efficiency_score.getD 0.5 < 0.6 ∧
      (a.shopping.shopping_patterns.map ShoppingPatterns.shopping_frequency).getD "weekly" =
        "daily" then
    [transportShoppingSynergy] else [])

/-- `_assess_feasibility` (from `cost_impact`). -/
def assess_feasibility (rec : Intervention) : String :=
  let cost := (lowerChars (rec.cost_impact.getD "Medium"))
  if containsL "low".toList cost ∨ containsL "savings".toList cost then "high"
  else if containsL "medium".toList cost then "medium"
  else "low"

/-- `_assess_urgency`. -/
def assess_urgency (analysis : DomainAnalysisR) (rec : Intervention) : String :=
  if analysis.carbon_footprint.getD 0 > 5 ∧ rec.priority.getD "medium" = "high" then "critical"
  else if analysis.carbon_footprint.getD 0 > 2 ∨ rec.priority.getD "medium" = "high" then "high"
  else "medium"

/-- The `priority_scores` table of `_calculate_priority_score` (default 3). -/
def priority_scores (s : String) : ℚ :=
  if s = "critical" then 5 else if s = "high" then 4 else if s = "medium" then 3
  else if s = "low" then 2 else 3

/-- The `feasibility_scores` table (default 2). -/
def feasibility_scores_syn (s : String) : ℚ :=
  if s = "high" then 3 else if s = "medium" then 2 else if s = "low" then 1 else 2

/-- The `urgency_scores` table (default 2). -/
def urgency_scores (s : String) : ℚ :=
  if s = "critical" then 4 else if s = "high" then 3 else if s = "medium" then 2
  else if s = "low" then 1 else 2

/-- `_calculate_priority_score`. -/
def calculate_priority_score (iv : Intervention) : ℚ :=
  (priority_scores (iv.priority.getD "medium") * 0.4 +
   feasibility_scores_syn (iv.feasibility.getD "medium") * 0.3 +
   urgency_scores (iv.urgency.getD "medium") * 0.3) * iv.synergy_multiplier.getD 1

/-- One pooled intervention dict of `_prioritize_interventions` (exactly the
keys the source writes; everything else stays absent). -/
def pool_intervention (domain : String) (analysis : DomainAnalysisR) (rec : Intervention) :
    Intervention :=
  { domain := some domain
    action := some (rec.action.getD "")
    impact := some (rec.impact.getD "")
    priority := some (rec.priority.getD "medium")
    co2_reduction := some (rec.co2_reduction.getD "0.5 tons/year")
    cost_impact := some (rec.cost_impact.getD "Medium")
    feasibility := some (assess_feasibility rec)
    urgency := some (assess_urgency analysis rec) }

/-- The synthetic intervention appended per detected synergy. -/
def synergy_intervention (syn : Synergy) : Intervention :=
  { domain := some "cross_domain"
    action := some syn.description
    impact := some syn.combined_impact
    priority := some "high"
    co2_reduction := some "5-15 tons/year"
    cost_impact := some "High initial, excellent ROI"
    feasibility := some "medium"
    urgency := some "high"
    synergy_multiplier := some syn.synergy_multiplier }

/-- The `all_interventions` pool of `_prioritize_interventions`, in the
source's iteration order (domains in dict order, then synergies). -/
def all_interventions (a : Analyses) (synergies : List Synergy) : List Intervention :=
  ((analysesList a).flatMap (fun p =>
    (p.2.recommendations.getD []).map (pool_intervention p.1 p.2))) ++
  synergies.map synergy_intervention

/-- `_prioritize_interventions`: stable sort by priority score, descending,
keep the top 8. -/
def prioritize_interventions (a : Analyses) (synergies : List Synergy) : List Intervention :=
  (sortDescBy calculate_priority_score (all_interventions a synergies)).take 8

/-- The value `_analyze_potential_impact` adds per action to
`total_potential_reduction`: the last number of the co2_reduction string
(0 when the string holds no number). -/
def synth_co2_value (action : Intervention) : ℚ :=
  (scanNums (action.co2_reduction.getD "0.5 tons/year")).getLastD 0

/-- The `timeline_map` of `_analyze_potential_impact` (default "6-12 months"). -/
def timeline_map (urgency : String) : String :=
  if urgency = "critical" then "0-3 months" else if urgency = "high" then "3-6 months"
  else if urgency = "medium" then "6-12 months" else if urgency = "low" then "12+ months"
  else "6-12 months"

/-- `impact_analysis` (the `implementation_timeline` dict is modelled as the
association list written in iteration order). -/
structure ImpactAnalysis where
  total_potential_reduction : ℚ
  implementation_timeline : List (String × String)
  quick_wins : List Intervention
  high_impact_projects : List Intervention
deriving DecidableEq, Repr

/-- `_analyze_potential_impact` (the source indexes `action["action"]`, present
on every pooled intervention; absent keys are read as `""`). -/
def analyze_potential_impact (prioritized_actions : List Intervention) : ImpactAnalysis :=
  { total_potential_reduction := pyRound 1 ((prioritized_actions.map synth_co2_value).sum)
    implementation_timeline := prioritized_actions.map (fun action =>
      (action.action.getD "", timeline_map (action.urgency.getD "medium")))
    quick_wins := (prioritized_actions.filter (fun a => a.feasibility = some "high")).take 3
    high_impact_projects := (prioritized_actions.filter (fun a =>
      strContains (a.co2_reduction.getD "") "high")).take 3 }

/-- `_create_integrated_plan`. -/
structure IntegratedPlan where
  phase_1_immediate : List Intervention
  phase_2_short_term : List Intervention
  phase_3_long_term : List Intervention
  synergy_clusters : List Synergy
deriving DecidableEq, Repr

def create_integrated_plan (prioritized_actions : List Intervention)
    (synergies : List Synergy) : IntegratedPlan :=
  { phase_1_immediate := prioritized_actions.filter (fun a =>
      ((a.urgency.getD "medium" = "critical" ∨ a.urgency.getD "medium" = "high") ∧
        a.feasibility.getD "medium" = "high" : Bool))
    phase_2_short_term := prioritized_actions.filter (fun a =>
      (¬((a.urgency.getD "medium" = "critical" ∨ a.urgency.getD "medium" = "high") ∧
          a.feasibility.getD "medium" = "high") ∧
        (a.urgency.getD "medium" = "high" ∨ a.urgency.getD "medium" = "medium") : Bool))
    phase_3_long_term := prioritized_actions.filter (fun a =>
      (¬((a.urgency.getD "medium" = "critical" ∨ a.urgency.getD "medium" = "high") ∧
          a.feasibility.getD "medium" = "high") ∧
        ¬(a.urgency.getD "medium" = "high" ∨ a.urgency.getD "medium" = "medium") : Bool))
    synergy_clusters := synergies }

/-- `_calculate_eco_score` (clamped to [0, 100] and rounded to 1 decimal). -/
def calculate_eco_score (a : Analyses) (total_footprint : ℚ) : ℚ :=
  let footprint_score := max 0 (100 - total_footprint / 4.8 * 50)
  let avg_efficiency_score :=
    ((analysesList a).map (fun p => p.2.efficiency_score.getD 0.5 * domain_weights p.1 * 100)).sum
  pyRound 1 (min 100 (max 0 (avg_efficiency_score * 0.6 + footprint_score * 0.4)))

/-- The synthesis dict.  `synthesis_confidence` is kept abstract (`none`): the
source computes it through `numpy.std`, a real-valued operation outside this
rational model; no claim reads it. -/
structure SynthesisResult where
  agent_id : Option String := none
  total_carbon_footprint : Option ℚ := none
  domain_breakdown : List (String × DomainBreakdown) := []
  synergies : List Synergy := []
  prioritized_actions : List Intervention := []
  impact_analysis : Option ImpactAnalysis := none
  integrated_plan : Option IntegratedPlan := none
  eco_score : Option ℚ := none
  synthesis_confidence : Option ℚ := none
deriving DecidableEq, Repr, Inhabited

/-- `synthesize`. -/
def synthesize (a : Analyses) : SynthesisResult :=
  let total_footprint := calculate_total_footprint a
  let synergies := identify_synergies a
  let prioritized_actions := prioritize_interventions a synergies
  { agent_id := some "synthesizer_master_005"
    total_carbon_footprint := some total_footprint
    domain_breakdown := get_domain_breakdown a
    synergies := synergies
    prioritized_actions := prioritized_actions
    impact_analysis := some (analyze_potential_impact prioritized_actions)
    integrated_plan := some (create_integrated_plan prioritized_actions synergies)
    eco_score := some (calculate_eco_score a total_footprint)
    synthesis_confidence := none }

/-! ## Refinement loop (agents/refiner_loop.py)

`refine_plan` receives the synthesis dict and works on `synthesis.copy()`, a
shallow copy: the intervention dicts inside `prioritized_actions` are shared
between the caller's object and the working plan until a strategy replaces
them.  `_apply_learning_refinement` writes `implementation_tips` into those
dicts in place.  The model makes the sharing explicit: `RefState.inputs` is
the caller's action list (by position) and the working plan is a list of
cells, `PCell.shared i` for a dict shared with input position `i` and
`PCell.fresh v` for a dict the refiner allocated. -/

/-- A cell of the refiner's working plan. -/
inductive PCell where
  | shared (i : ℕ)
  | fresh (v : Intervention)
deriving DecidableEq, Repr

/-- The refiner's working state. -/
structure RefState where
  inputs : List Intervention
  plan : List PCell
deriving Repr

/-- The dict a cell currently denotes. -/
def PCell.value (inputs : List Intervention) : PCell → Intervention
  | .shared i => inputs.getD i default
  | .fresh v => v

/-- The working plan as the list of dicts it denotes. -/
def planValues (s : RefState) : List Intervention := s.plan.map (PCell.value s.inputs)

/-- The five quality scores of `_assess_plan_quality`. -/
structure QualityAssessment where
  feasibility_score : ℚ := 0
  impact_score : ℚ := 0
  cost_effectiveness : ℚ := 0
  implementation_clarity : ℚ := 0
  user_alignment : ℚ := 0
deriving DecidableEq, Repr

/-- The `feasibility_scores` table of `_assess_plan_quality` (default 0.6). -/
def feasibility_scores_ref (s : String) : ℚ :=
  if s = "high" then 1 else if s = "medium" then 0.6 else if s = "low" then 0.3 else 0.6

/-- `_assess_plan_quality` (all five denominators equal the list length on the
nonempty branch; the empty plan scores 0 everywhere). -/
def assess_plan_quality (prioritized_actions : List Intervention) : QualityAssessment :=
  if prioritized_actions = [] then {}
  else
    { feasibility_score :=
        ((prioritized_actions.map (fun a => feasibility_scores_ref (a.feasibility.getD "medium"))).sum) /
          (prioritized_actions.length : ℚ)
      impact_score :=
        min 1 ((prioritized_actions.countP (fun a => strContains (a.co2_reduction.getD "") "high") : ℚ) /
          (prioritized_actions.length : ℚ))
      cost_effectiveness :=
        ((prioritized_actions.countP (fun a =>
          containsL "savings".toList (lowerChars (a.cost_impact.getD "")) ∨
          containsL "low".toList (lowerChars (a.cost_impact.getD ""))) : ℚ)) /
          (prioritized_actions.length : ℚ)
      implementation_clarity :=
        ((prioritized_actions.countP (fun a => (a.action.getD "").length > 20) : ℚ)) /
          (prioritized_actions.length : ℚ)
      user_alignment :=
        ((prioritized_actions.countP (fun a =>
          a.feasibility = some "high" ∧ a.urgency ≠ some "low") : ℚ)) /
          (prioritized_actions.length : ℚ) }

/-- A refinement opportunity dict. -/
structure RefinementOpportunity where
  type : String
  description : String
  target_actions : List Intervention
  refinement_strategy : String
deriving DecidableEq, Repr, Inhabited

/-- `_find_low_feasibility_actions`. -/
def find_low_feasibility_actions (syn : SynthesisResult) : List Intervention :=
  syn.prioritized_actions.filter (fun a => a.feasibility = some "low")

/-- `_find_high_cost_actions`. -/
def find_high_cost_actions (syn : SynthesisResult) : List Intervention :=
  syn.prioritized_actions.filter (fun a => containsL "high".toList (lowerChars (a.cost_impact.getD "")))

/-- `_find_low_impact_actions`. -/
def find_low_impact_actions (syn : SynthesisResult) : List Intervention :=
  syn.prioritized_actions.filter (fun a => ¬(a.co2_reduction.getD "").toList.any Char.isDigit)

/-- The refinement record `refine_plan` returns (and appends to the history). -/
structure ImprovementValidation where
  original_quality : QualityAssessment
  refined_quality : QualityAssessment
  overall_improvement : ℚ
  validation_passed : Bool
  significant_improvement : Bool
deriving DecidableEq, Repr

structure RefinementRecord where
  iteration : ℕ := 1
  quality_assessment : QualityAssessment := {}
  refinement_opportunities : List RefinementOpportunity := []
  refined_plan : SynthesisResult := {}
  improvement_validation : ImprovementValidation :=
    { original_quality := {}, refined_quality := {}, overall_improvement := 0,
      validation_passed := false, significant_improvement := false }
  learning_insights : List String := []
  quality_score : ℚ := 0
  refinement_confidence : ℚ := 0
deriving Repr

/-- `_identify_recurring_issues`: opportunity types seen more than once across
the history, in first-seen order. -/
def identify_recurring_issues (previous_refinements : List RefinementRecord) : List String :=
  let types := previous_refinements.flatMap (fun r => r.refinement_opportunities.map (·.type))
  let firstSeen := types.foldl (fun acc t => if t ∈ acc then acc else acc ++ [t]) []
  firstSeen.filter (fun t => types.count t > 1)

/-- `_identify_refinement_opportunities`. -/
def identify_refinement_opportunities (syn : SynthesisResult)
    (previous_refinements : List RefinementRecord) (qa : QualityAssessment) :
    List RefinementOpportunity :=
  (if qa.feasibility_score < 0.7 then
    [{ type := "feasibility_improvement"
       description := "Increase feasibility by breaking down complex actions"
       target_actions := find_low_feasibility_actions syn
       refinement_strategy := "decomposition_and_phasing" }] else []) ++
  (if qa.cost_effectiveness < 0.6 then
    [{ type := "cost_optimization"
       description := "Prioritize cost-effective interventions"
       target_actions := find_high_cost_actions syn
       refinement_strategy := "cost_benefit_reordering" }] else []) ++
  (if qa.implementation_clarity < 0.8 then
    [{ type := "sequencing_optimization"
       description := "Improve implementation sequencing and dependencies"
       target_actions := syn.prioritized_actions
       refinement_strategy := "dependency_analysis" }] else []) ++
  (if qa.impact_score < 0.5 then
    [{ type := "impact_maximization"
       description := "Focus on highest-impact interventions first"
       target_actions := find_low_impact_actions syn
       refinement_strategy := "impact_prioritization" }] else []) ++
  (identify_recurring_issues previous_refinements).map (fun issue =>
    { type := "recurring_issue_resolution"
      description := "Address recurring issue: " ++ issue
      target_actions := []
      refinement_strategy := "adaptive_learning" })

/-- `_decompose_action`. -/
def decompose_action (action : Intervention) : List Intervention :=
  let main_action := action.action.getD ""
  if containsL "solar panels".toList (lowerChars main_action) then
    [{ action with action := some "Get solar panel quotes and assessments", feasibility := some "high" },
     { action with action := some "Apply for solar installation permits", feasibility := some "high" },
     { action with action := some "Install solar panel system", feasibility := some "medium" }]
  else if containsL "electric vehicle".toList (lowerChars main_action) then
    [{ action with action := some "Research EV models and test drive", feasibility := some "high" },
     { action with action := some "Install home charging station", feasibility := some "medium" },
     { action with action := some "Purchase electric vehicle", feasibility := some "medium" }]
  else
    [{ action with action := some ("Plan: " ++ main_action), feasibility := some "high" },
     { action with
        action := some ("Execute: " ++ main_action)
        feasibility := some (action.feasibility.getD "medium") }]

/-- `_apply_decomposition_refinement`: replaces each plan dict that equals a
target (`action in target_actions` is dict value equality) by fresh
sub-action dicts. -/
def apply_decomposition_refinement (s : RefState) (opp : RefinementOpportunity) : RefState :=
  { s with plan := s.plan.flatMap (fun c =>
      if c.value s.inputs ∈ opp.target_actions then
        (decompose_action (c.value s.inputs)).map PCell.fresh
      else [c]) }

/-- The `cost_effectiveness_score` key of `_apply_cost_optimization_refinement`
(`next(k for k in ["low","medium","high","savings"] if k in cost)` maps to
this ordered test; the impact factor is the last number of the co2 string,
1.0 if none). -/
def cost_effectiveness_score (action : Intervention) : ℚ :=
  let cost := lowerChars (action.cost_impact.getD "medium")
  let cost_score : ℚ :=
    if containsL "low".toList cost then 3
    else if containsL "medium".toList cost then 2
    else if containsL "high".toList cost then 1
    else if containsL "savings".toList cost then 4
    else 2
  cost_score * (scanNums (action.co2_reduction.getD "0.5")).getLastD 1

/-- `_apply_cost_optimization_refinement`. -/
def apply_cost_optimization_refinement (s : RefState) : RefState :=
  { s with plan := sortDescBy (fun c => cost_effectiveness_score (c.value s.inputs)) s.plan }

/-- `_apply_sequencing_refinement`: three keyword buckets, then the rest
(membership in the bucket concatenation is dict value equality). -/
def apply_sequencing_refinement (s : RefState) : RefState :=
  let actionHasKw := fun (kws : List String) (c : PCell) =>
    kws.any (fun kw => containsL kw.toList (lowerChars ((c.value s.inputs).action.getD "")))
  let foundation := s.plan.filter (actionHasKw ["insulation", "led", "thermostat", "bike", "walk"])
  let major := s.plan.filter (actionHasKw ["solar", "electric vehicle", "heat pump", "ev"])
  let lifestyle := s.plan.filter (actionHasKw ["meat", "diet", "shopping", "local", "second"])
  let other := s.plan.filter (fun c =>
    ¬(foundation ++ major ++ lifestyle).any (fun d => d.value s.inputs = c.value s.inputs))
  { s with plan := foundation ++ major ++ lifestyle ++ other }

/-- The sort key of `_apply_impact_refinement` (last number of the co2 string,
0.5 if none). -/
def impact_score_key (action : Intervention) : ℚ :=
  (scanNums (action.co2_reduction.getD "0.5")).getLastD 0.5

/-- `_apply_impact_refinement`: sort by impact descending, keep the top 6. -/
def apply_impact_refinement (s : RefState) : RefState :=
  { s with plan := (sortDescBy (fun c => impact_score_key (c.value s.inputs)) s.plan).take 6 }

/-- `_generate_implementation_tips`. -/
def generate_implementation_tips (action : Intervention) : List String :=
  if containsL "solar".toList (lowerChars (action.action.getD "")) then
    ["Get multiple quotes from certified installers",
     "Check local incentives and tax credits",
     "Ensure roof condition is suitable for installation"]
  else if containsL "electric".toList (lowerChars (action.action.getD "")) then
    ["Test drive multiple EV models",
     "Plan charging infrastructure first",
     "Consider total cost of ownership"]
  else if containsL "diet".toList (lowerChars (action.action.getD "")) ∨
      containsL "meat".toList (lowerChars (action.action.getD "")) then
    ["Start with one plant-based day per week",
     "Find tasty plant-based recipes",
     "Ensure nutritional balance"]
  else
    ["Start with small, manageable steps",
     "Track progress regularly",
     "Celebrate small wins"]

/-- Python `if not action.get("implementation_tips")`: the key is absent or
holds an empty (falsy) list. -/
def tipsEmpty (v : Intervention) : Bool :=
  match v.implementation_tips with
  | none => true
  | some [] => true
  | some (_ :: _) => false

/-- The in-place `action["implementation_tips"] = ...` write (a no-op when
tips are already present). -/
def setTips (v : Intervention) : Intervention :=
  if tipsEmpty v then { v with implementation_tips := some (generate_implementation_tips v) }
  else v

/-- `_apply_learning_refinement`: walks the current plan and writes tips into
each dict lacking them — through a shared cell this mutates the caller's
dict. -/
def apply_learning_refinement (s : RefState) : RefState :=
  (List.range s.plan.length).foldl (fun st j =>
    match st.plan.getD j (PCell.fresh default) with
    | .shared i => { st with inputs := st.inputs.set i (setTips (st.inputs.getD i default)) }
    | .fresh v => { st with plan := st.plan.set j (PCell.fresh (setTips v)) }) s

/-- `_apply_refinements`: fold the strategies over the shallow-copied plan in
opportunity order (an unknown strategy is a no-op). -/
def apply_refinements (syn : SynthesisResult) (opportunities : List RefinementOpportunity) :
    RefState :=
  opportunities.foldl (fun st opp =>
    if opp.refinement_strategy = "decomposition_and_phasing" then
      apply_decomposition_refinement st opp
    else if opp.refinement_strategy = "cost_benefit_reordering" then
      apply_cost_optimization_refinement st
    else if opp.refinement_strategy = "dependency_analysis" then
      apply_sequencing_refinement st
    else if opp.refinement_strategy = "impact_prioritization" then
      apply_impact_refinement st
    else if opp.refinement_strategy = "adaptive_learning" then
      apply_learning_refinement st
    else st)
    { inputs := syn.prioritized_actions
      plan := (List.range syn.prioritized_actions.length).map PCell.shared }

/-- The sum of the five per-metric deltas of `_validate_improvements`. -/
def qualityDeltaSum (o r : QualityAssessment) : ℚ :=
  (r.feasibility_score - o.feasibility_score) + (r.impact_score - o.impact_score) +
  (r.cost_effectiveness - o.cost_effectiveness) +
  (r.implementation_clarity - o.implementation_clarity) + (r.user_alignment - o.user_alignment)

/-- `_validate_improvements` (the per-metric dict is carried as the two
assessments; `overall_improvement` is the mean of the five deltas). -/
def validate_improvements (original refined : List Intervention) : ImprovementValidation :=
  let oq := assess_plan_quality original
  let rq := assess_plan_quality refined
  let overall := qualityDeltaSum oq rq / 5
  { original_quality := oq
    refined_quality := rq
    overall_improvement := overall
    validation_passed := overall > 0
    significant_improvement := overall > 0.1 }

/-- `_calculate_quality_score`. -/
def calculate_quality_score (plan_actions : List Intervention) : ℚ :=
  let qa := assess_plan_quality plan_actions
  pyRound 3 (qa.feasibility_score * 0.25 + qa.impact_score * 0.30 +
    qa.cost_effectiveness * 0.20 + qa.implementation_clarity * 0.15 + qa.user_alignment * 0.10)

/-- `_calculate_refinement_confidence`. -/
def calculate_refinement_confidence (v : ImprovementValidation) : ℚ :=
  if ¬v.validation_passed then 0.3
  else if v.overall_improvement > 0.2 then 0.9
  else if v.overall_improvement > 0.1 then 0.7
  else if v.overall_improvement > 0 then 0.5
  else 0.3

/-- `_extract_learning_insights`.  The source passes the refined *plan* dict as
`current_refinement`, so `current_refinement.get("improvement_validation", {})`
and `.get("quality_score", 0.5)` always read `{}` and `0.5`: only the
history-trend insight can fire. -/
def extract_learning_insights (previous_refinements : List RefinementRecord)
    (_refined_plan : SynthesisResult) : List String :=
  if previous_refinements.length ≥ 2 then
    let recent := (previous_refinements.drop (previous_refinements.length - 2)).map
      (fun r => r.improvement_validation.overall_improvement)
    if recent.all (fun imp => imp > 0) then
      ["Consistent improvement pattern - refinement strategy is effective"]
    else if recent.all (fun imp => imp ≤ 0) then
      ["Diminishing returns - consider alternative refinement approaches"]
    else []
  else []

/-- `refine_plan`.  The first component is the returned refinement record; the
second is the caller's `prioritized_actions` list as it stands after the call
(the in-place tips writes made through shared dicts). -/
def refine_plan (syn : SynthesisResult) (previous_refinements : List RefinementRecord) :
    RefinementRecord × List Intervention :=
  let qa := assess_plan_quality syn.prioritized_actions
  let opportunities := identify_refinement_opportunities syn previous_refinements qa
  let st := apply_refinements syn opportunities
  let refined_plan : SynthesisResult := { syn with prioritized_actions := planValues st }
  let validation := validate_improvements st.inputs (planValues st)
  ({ iteration := previous_refinements.length + 1
     quality_assessment := qa
     refinement_opportunities := opportunities
     refined_plan := refined_plan
     improvement_validation := validation
     learning_insights := extract_learning_insights previous_refinements refined_plan
     quality_score := calculate_quality_score refined_plan.prioritized_actions
     refinement_confidence := calculate_refinement_confidence validation }, st.inputs)

/-! ## Evaluator (agents/evaluator.py) — the functions the claims read -/

/-- `_extract_user_characteristics`. -/
structure UserCharacteristics where
  luxury_oriented : Bool := false
  tech_savvy : Bool := false
  environmentally_conscious : Bool := false
  budget_conscious : Bool := false
  convenience_focused : Bool := false
deriving DecidableEq, Repr

def extract_user_characteristics (user_input : String) : UserCharacteristics :=
  { luxury_oriented := anyKw user_input ["luxury", "expensive", "premium", "high-end"]
    tech_savvy := anyKw user_input ["tech", "smart", "app", "digital"]
    environmentally_conscious := anyKw user_input ["eco", "green", "sustainable", "environment"]
    budget_conscious := anyKw user_input ["cheap", "affordable", "budget", "save money"]
    convenience_focused := anyKw user_input ["convenient", "easy", "simple", "quick"] }

/-- The per-action alignment points of `_calculate_alignment_score`: one point
per matching trait rule (the luxury trait has no rule there). -/
def alignment_points_of (ch : UserCharacteristics) (action : Intervention) : ℕ :=
  (if ch.budget_conscious ∧
      (containsL "savings".toList (lowerChars (action.cost_impact.getD "")) ∨
       containsL "low".toList (lowerChars (action.cost_impact.getD ""))) then 1 else 0) +
  (if ch.convenience_focused ∧ action.feasibility = some "high" then 1 else 0) +
  (if ch.tech_savvy ∧ ["smart", "app", "system", "tech"].any (fun w =>
      containsL w.toList (lowerChars (action.action.getD ""))) then 1 else 0) +
  (if ch.environmentally_conscious ∧ ["renewable", "sustainable", "eco", "green"].any (fun w =>
      containsL w.toList (lowerChars (action.action.getD ""))) then 1 else 0)

/-- `_calculate_alignment_score`: `total_points` counts one per action while
`alignment_points` can grow by up to 4 per action. -/
def calculate_alignment_score (syn : SynthesisResult) (ch : UserCharacteristics) : ℚ :=
  let actions := syn.prioritized_actions
  let points := (actions.map (fun a => alignment_points_of ch a)).sum
  (points : ℚ) / max (actions.length : ℚ) 1

/-- `_assess_user_alignment`, reduced to its score (the category strings and
personalization notes are derived texts no claim reads). -/
def assess_user_alignment_score (syn : SynthesisResult) (user_input : String) : ℚ :=
  calculate_alignment_score syn (extract_user_characteristics user_input)

/-- `_calculate_final_eco_score` (its three score inputs are read from the
evaluation dicts with defaults 0.5 by the source; they are passed here
directly). -/
def calculate_final_eco_score (syn : SynthesisResult)
    (overall_score alignment_score feasibility_score : ℚ) : ℚ :=
  pyRound 1 (min 100 (max 0 (syn.eco_score.getD 25 + overall_score * 20 +
    alignment_score * 15 + feasibility_score * 10)))

/-- `_define_action_success_criteria`. -/
def define_action_success_criteria (action : Intervention) : List String :=
  let t := lowerChars (action.action.getD "")
  if containsL "solar".toList t then
    ["System installed and operational", "Monthly energy bill reduced", "CO2 emissions tracked"]
  else if containsL "electric".toList t then
    ["Vehicle purchased/leased", "Charging setup complete", "Fuel costs eliminated"]
  else if containsL "diet".toList t ∨ containsL "meat".toList t then
    ["Meal planning established", "Plant-based meals tracked", "Nutritional balance maintained"]
  else if containsL "insulation".toList t ∨ containsL "efficiency".toList t then
    ["Installation completed", "Energy usage monitored", "Comfort level maintained"]
  else
    ["Action implemented", "Progress tracked", "Results measured"]

/-- `_estimate_action_timeline`. -/
def estimate_action_timeline (action : Intervention) : String :=
  let feasibility := action.feasibility.getD "medium"
  let cost_impact := lowerChars (action.cost_impact.getD "medium")
  if feasibility = "high" ∧ (containsL "low".toList cost_impact ∨ containsL "savings".toList cost_impact)
  then "1-4 weeks"
  else if feasibility = "high" then "1-3 months"
  else if feasibility = "medium" then "3-6 months"
  else "6-12 months"

/-- `_identify_action_resources`. -/
def identify_action_resources (action : Intervention) : List String :=
  let t := lowerChars (action.action.getD "")
  if containsL "install".toList t then
    ["Professional installer", "Permits/approvals", "Financing"]
  else if containsL "purchase".toList t ∨ containsL "buy".toList t then
    ["Research time", "Budget allocation", "Vendor selection"]
  else if containsL "reduce".toList t ∨ containsL "change".toList t then
    ["Habit tracking app", "Alternative options research", "Support system"]
  else
    ["Planning time", "Implementation budget", "Progress tracking"]

/-- `_finalize_action_list`: annotate every action with success criteria,
timeline and resources (in the source these are in-place dict writes), then
keep the top 6.  Its `evaluation_results` argument is never read. -/
def finalize_action_list (plan : SynthesisResult) : List Intervention :=
  (plan.prioritized_actions.map (fun action =>
    { action with
        success_criteria := some (define_action_success_criteria action)
        timeline := some (estimate_action_timeline action)
        resources_needed := some (identify_action_resources action) })).take 6

/-- The value `_define_expected_outcomes` adds per final action to the
expected-outcomes CO2 total: the last number of the co2_reduction string
(default string "0.5"; nothing is added when the string holds no number). -/
def eval_outcome_co2_value (action : Intervention) : ℚ :=
  (scanNums (action.co2_reduction.getD "0.5")).getLastD 0

/-- The CO2 total of `_define_expected_outcomes` (the record publishes it
formatted with one decimal). -/
def expected_outcomes_co2_total (actions : List Intervention) : ℚ :=
  (actions.map eval_outcome_co2_value).sum

/-- The value `_estimate_roi` adds per action (same extraction). -/
def roi_co2_value (action : Intervention) : ℚ :=
  (scanNums (action.co2_reduction.getD "0.5")).getLastD 0

/-! ## Workflow orchestration (workflow.py) -/

/-- `_get_fallback_home_analysis`. -/
def fallback_home_analysis : DomainAnalysisR :=
  { agent_id := some "home_expert_fallback"
    carbon_footprint := some 3.0
    efficiency_score := some 0.4
    recommendations := some [
      { action := some "Install LED lighting", co2_reduction := some "0.5 tons/year",
        priority := some "high", cost_impact := some "Low cost, quick savings" }] }

/-- `_get_fallback_transport_analysis`. -/
def fallback_transport_analysis : DomainAnalysisR :=
  { agent_id := some "transport_expert_fallback"
    carbon_footprint := some 5.5
    efficiency_score := some 0.2
    recommendations := some [
      { action := some "Use public transportation", co2_reduction := some "2.0 tons/year",
        priority := some "high", cost_impact := some "Cost savings" }] }

/-- `_get_fallback_diet_analysis`. -/
def fallback_diet_analysis : DomainAnalysisR :=
  { agent_id := some "diet_expert_fallback"
    carbon_footprint := some 2.5
    efficiency_score := some 0.3
    recommendations := some [
      { action := some "Reduce meat consumption", co2_reduction := some "1.0 tons/year",
        priority := some "medium", cost_impact := some "Cost savings" }] }

/-- `_get_fallback_shopping_analysis`. -/
def fallback_shopping_analysis : DomainAnalysisR :=
  { agent_id := some "shopping_expert_fallback"
    carbon_footprint := some 1.5
    efficiency_score := some 0.4
    recommendations := some [
      { action := some "Buy second-hand items", co2_reduction := some "0.3 tons/year",
        priority := some "low", cost_impact := some "Cost savings" }] }

/-- The fan-in of `_run_parallel_domain_analysis`: `asyncio.gather(...,
return_exceptions=True)` hands back either a result or the raised exception;
each exception is replaced by that domain's fixed fallback analysis. -/
def fan_in (home transport diet shopping : Except String DomainAnalysisR) : Analyses :=
  { home := match home with | .ok v => v | .error _ => fallback_home_analysis
    transport := match transport with | .ok v => v | .error _ => fallback_transport_analysis
    diet := match diet with | .ok v => v | .error _ => fallback_diet_analysis
    shopping := match shopping with | .ok v => v | .error _ => fallback_shopping_analysis }

/-- `_should_refine`. -/
def should_refine (syn : SynthesisResult) : Bool :=
  syn.eco_score.getD 50 < 60 ∨ syn.synthesis_confidence.getD 0.5 < 0.7

/-- The `implementation_timeline` buckets of the evaluator's final plan. -/
structure EvalTimeline where
  immediate : List String := []
  short_term : List String := []
  medium_term : List String := []
  long_term : List String := []
deriving DecidableEq, Repr

/-- The parts of the evaluator's output dict that `_compile_final_results`
reads (each `Option` mirrors one `.get(...)` chain). -/
structure EvaluatorOutput where
  final_eco_score : Option ℚ := none
  potential_reduction : Option ℚ := none
  final_actions : Option (List Intervention) := none
  implementation_timeline : Option EvalTimeline := none
deriving Repr

/-- The response envelope: the union of the keys of the normal
`_compile_final_results` dict and of the `except` fallback dict (the
`workflow_state` / timestamp bookkeeping fields are not modelled). -/
structure WorkflowResult where
  error : Option String := none
  eco_score : ℚ := 25
  total_carbon_footprint : ℚ := 12.5
  potential_reduction : Option ℚ := none
  domain_breakdown : List (String × DomainBreakdown) := []
  prioritized_actions : List Intervention := []
  implementation_timeline : Option EvalTimeline := none
  synergies : List Synergy := []
deriving Repr

/-- The one-item action plan of the orchestrator's `except` branch. -/
def led_fallback_action : Intervention :=
  { action := some "Start with energy-efficient LED lighting"
    co2_reduction := some "0.5 tons/year"
    feasibility := some "high"
    cost_impact := some "Low cost, immediate savings"
    domain := some "home" }

/-- The dict returned by `run_complete_analysis`'s `except` branch. -/
def fallback_error_result (e : String) : WorkflowResult :=
  { error := some ("Workflow failed: " ++ e)
    eco_score := 25
    total_carbon_footprint := 12.5
    prioritized_actions := [led_fallback_action] }

/-- `_compile_final_results` on a completed run (both state entries are set on
that path; the original, pre-refinement synthesis is read back from
`workflow_state["synthesis_result"]`). -/
def compile_final_results (syn : SynthesisResult) (ev : EvaluatorOutput) : WorkflowResult :=
  { error := none
    eco_score := ev.final_eco_score.getD (syn.eco_score.getD 25)
    total_carbon_footprint := syn.total_carbon_footprint.getD 13.0
    potential_reduction := some (ev.potential_reduction.getD 8.5)
    domain_breakdown := syn.domain_breakdown
    prioritized_actions := ev.final_actions.getD syn.prioritized_actions
    implementation_timeline := some (ev.implementation_timeline.getD {})
    synergies := syn.synergies }

/-- The pipeline stages as the orchestrator calls them, each able to raise
(`Except.error` = an exception reaching the orchestrator's `try`).  `σ` is the
supervisor's result type; the domain stages receive it as the source's
`_run_*_analysis(supervisor_result)` do. -/
structure PipelineStages (σ : Type) where
  supervisor : Except String σ
  home : σ → Except String DomainAnalysisR
  transport : σ → Except String DomainAnalysisR
  diet : σ → Except String DomainAnalysisR
  shopping : σ → Except String DomainAnalysisR
  synth : Analyses → Except String SynthesisResult
  refine : SynthesisResult → List RefinementRecord → Except String RefinementRecord
  evaluate : SynthesisResult → List RefinementRecord → String → Except String EvaluatorOutput

/-- The `try` body of `run_complete_analysis` for one request (the instance
starts with an empty refinement history): supervisor, parallel domain
analysis with per-domain fallback, synthesis, optional refinement, final
evaluation, result compilation. -/
def pipeline_body {σ : Type} (st : PipelineStages σ) (user_input : String) :
    Except String WorkflowResult := do
  let sup ← st.supervisor
  let domains := fan_in (st.home sup) (st.transport sup) (st.diet sup) (st.shopping sup)
  let syn ← st.synth domains
  let (syn2, history) ←
    if should_refine syn then do
      let r ← st.refine syn []
      pure (r.refined_plan, [r])
    else pure (syn, ([] : List RefinementRecord))
  let ev ← st.evaluate syn2 history user_input
  pure (compile_final_results syn ev)

/-- `run_complete_analysis`: the `try` body, with every exception recovered by
the fixed fallback result.  Total by construction — the call never raises. -/
def run_complete_analysis {σ : Type} (st : PipelineStages σ) (user_input : String) :
    WorkflowResult :=
  match pipeline_body st user_input with
  | .ok r => r
  | .error e => fallback_error_result e

/-! ## Claim theorems -/

/-- C1: `run_complete_analysis` is total (it returns a `WorkflowResult`, never
raising), and whenever a pipeline stage raises — the supervisor directly, or
synthesis / refinement / evaluation further down the chain — the returned
object is exactly the fixed fallback tagged with the failure: eco_score 25,
total_carbon_footprint 12.5 and a one-item prioritized_actions plan. -/
theorem C1_pipeline_failure_fallback {σ : Type} (st : PipelineStages σ)
    (user_input : String) (e : String) :
    (pipeline_body st user_input = .error e →
       run_complete_analysis st user_input = fallback_error_result e) ∧
    (st.supervisor = .error e → pipeline_body st user_input = .error e) ∧
    (∀ sup, st.supervisor = .ok sup →
      st.synth (fan_in (st.home sup) (st.transport sup) (st.diet sup) (st.shopping sup)) =
        .error e →
      pipeline_body st user_input = .error e) ∧
    (∀ sup syn, st.supervisor = .ok sup →
      st.synth (fan_in (st.home sup) (st.transport sup) (st.diet sup) (st.shopping sup)) =
        .ok syn →
      should_refine syn = true → st.refine syn [] = .error e →
      pipeline_body st user_input = .error e) ∧
    (∀ sup syn r, st.supervisor = .ok sup →
      st.synth (fan_in (st.home sup) (st.transport sup) (st.diet sup) (st.shopping sup)) =
        .ok syn →
      should_refine syn = true → st.refine syn [] = .ok r →
      st.evaluate r.refined_plan [r] user_input = .error e →
      pipeline_body st user_input = .error e) ∧
    (fallback_error_result e).error = some ("Workflow failed: " ++ e) ∧
    (fallback_error_result e).eco_score = 25 ∧
    (fallback_error_result e).total_carbon_footprint = 12.5 ∧
    (fallback_error_result e).prioritized_actions.length = 1 ∧
    (∀ r, pipeline_body st user_input = .ok r → run_complete_analysis st user_input = r) := by
  refine ⟨?_, ?_, ?_, ?_, ?_, rfl, rfl, rfl, rfl, ?_⟩
  · intro h
    simp [run_complete_analysis, h]
  · intro h
    simp [pipeline_body, h, bind, Except.bind]
  · intro sup hsup hsynth
    simp [pipeline_body, hsup, hsynth, bind, Except.bind]
  · intro sup syn hsup hsynth href hrefine
    simp [pipeline_body, hsup, hsynth, href, hrefine, bind, Except.bind]
  · intro sup syn r hsup hsynth href hrefine heval
    simp [pipeline_body, hsup, hsynth, href, hrefine, heval, bind, Except.bind, pure, Except.pure]
  · intro r h
    simp [run_complete_analysis, h]

/-- C1 witness: a concrete stage assignment whose synthesis stage raises; the
orchestrator returns the tagged fallback with eco_score 25, footprint 12.5
and one action. -/
theorem C1_pipeline_failure_fallback_witness :
    run_complete_analysis
      { supervisor := .ok ()
        home := fun _ => .ok fallback_home_analysis
        transport := fun _ => .ok fallback_transport_analysis
        diet := fun _ => .ok fallback_diet_analysis
        shopping := fun _ => .ok fallback_shopping_analysis
        synth := fun _ => .error "numpy exploded"
        refine := fun _ _ => .error "unreached"
        evaluate := fun _ _ _ => .error "unreached" }
      "some lifestyle text" = fallback_error_result "numpy exploded" ∧
    (fallback_error_result "numpy exploded").eco_score = 25 ∧
    (fallback_error_result "numpy exploded").total_carbon_footprint = 12.5 ∧
    (fallback_error_result "numpy exploded").prioritized_actions.length = 1 := by
  have h := C1_pipeline_failure_fallback (σ := Unit)
    { supervisor := .ok ()
      home := fun _ => .ok fallback_home_analysis
      transport := fun _ => .ok fallback_transport_analysis
      diet := fun _ => .ok fallback_diet_analysis
      shopping := fun _ => .ok fallback_shopping_analysis
      synth := fun _ => .error "numpy exploded"
      refine := fun _ _ => .error "unreached"
      evaluate := fun _ _ _ => .error "unreached" }
    "some lifestyle text" "numpy exploded"
  refine ⟨h.1 (h.2.2.1 () rfl rfl), h.2.2.2.2.2.2.1, h.2.2.2.2.2.2.2.1, h.2.2.2.2.2.2.2.2.1⟩

/-- C2: at the fan-in, a raising domain estimator is replaced by exactly that
domain's fixed fallback analysis, the other three domains keep exactly their
own results, and the result always carries all four domains (the `Analyses`
record is total in each field). -/
theorem C2_domain_fallback_isolation (rh rt rd rs : Except String DomainAnalysisR) :
    (∀ e, rh = .error e → (fan_in rh rt rd rs).home = fallback_home_analysis) ∧
    (∀ v, rh = .ok v → (fan_in rh rt rd rs).home = v) ∧
    (∀ e, rt = .error e → (fan_in rh rt rd rs).transport = fallback_transport_analysis) ∧
    (∀ v, rt = .ok v → (fan_in rh rt rd rs).transport = v) ∧
    (∀ e, rd = .error e → (fan_in rh rt rd rs).diet = fallback_diet_analysis) ∧
    (∀ v, rd = .ok v → (fan_in rh rt rd rs).diet = v) ∧
    (∀ e, rs = .error e → (fan_in rh rt rd rs).shopping = fallback_shopping_analysis) ∧
    (∀ v, rs = .ok v → (fan_in rh rt rd rs).shopping = v) := by
  refine ⟨?_, ?_, ?_, ?_, ?_, ?_, ?_, ?_⟩ <;> (intro x h; subst h; simp [fan_in])

/-- C2 witness: the diet estimator raises while the other three succeed; diet
is substituted by its fallback and the siblings are returned unchanged. -/
theorem C2_domain_fallback_isolation_witness :
    (fan_in (.ok { carbon_footprint := some 4 }) (.ok { efficiency_score := some 1 })
      (.error "provider timeout") (.ok { agent_id := some "s" })).diet =
        fallback_diet_analysis ∧
    (fan_in (.ok { carbon_footprint := some 4 }) (.ok { efficiency_score := some 1 })
      (.error "provider timeout") (.ok { agent_id := some "s" })).home =
        { carbon_footprint := some 4 } ∧
    (fan_in (.ok { carbon_footprint := some 4 }) (.ok { efficiency_score := some 1 })
      (.error "provider timeout") (.ok { agent_id := some "s" })).transport =
        { efficiency_score := some 1 } ∧
    (fan_in (.ok { carbon_footprint := some 4 }) (.ok { efficiency_score := some 1 })
      (.error "provider timeout") (.ok { agent_id := some "s" })).shopping =
        { agent_id := some "s" } := by
  have h := C2_domain_fallback_isolation (.ok { carbon_footprint := some 4 })
    (.ok { efficiency_score := some 1 }) (.error "provider timeout") (.ok { agent_id := some "s" })
  exact ⟨h.2.2.2.2.1 "provider timeout" rfl, h.2.1 _ rfl, h.2.2.2.1 _ rfl, h.2.2.2.2.2.2.2 _ rfl⟩

/-- C4: the synthesizer's prioritized_actions list never exceeds 8 entries,
and the evaluator's finalized action list never exceeds 6. -/
theorem C4_action_list_caps :
    (∀ a : Analyses, (synthesize a).prioritized_actions.length ≤ 8) ∧
    (∀ plan : SynthesisResult, (finalize_action_list plan).length ≤ 6) := by
  constructor
  · intro a
    simp only [synthesize, prioritize_interventions]
    simpa using Nat.min_le_left 8 _
  · intro plan
    simp only [finalize_action_list]
    simpa using Nat.min_le_left 6 _

/-! ### Helper lemmas for the synergy claim -/

theorem priority_scores_le (s : String) : priority_scores s ≤ 5 := by
  unfold priority_scores
  split_ifs <;> norm_num

theorem feasibility_scores_syn_le (s : String) : feasibility_scores_syn s ≤ 3 := by
  unfold feasibility_scores_syn
  split_ifs <;> norm_num

theorem urgency_scores_le_of_ne_critical (s : String) (h : s ≠ "critical") :
    urgency_scores s ≤ 3 := by
  unfold urgency_scores
  split_ifs with h1 <;> first | exact absurd h1 h | norm_num

theorem assess_urgency_critical_priority {anal : DomainAnalysisR} {rec : Intervention}
    (h : assess_urgency anal rec = "critical") : rec.priority.getD "medium" = "high" := by
  unfold assess_urgency at h
  split_ifs at h with h1 h2
  · exact h1.2
  · exact absurd h (by decide)
  · exact absurd h (by decide)

/-- Every intervention pooled from a domain recommendation scores strictly
below the EV/solar synthetic one. -/
theorem calculate_priority_score_pool_lt (d : String) (anal : DomainAnalysisR)
    (rec : Intervention) : calculate_priority_score (pool_intervention d anal rec) < 4.65 := by
  have hmul : (pool_intervention d anal rec).synergy_multiplier = none := rfl
  have hpr : (pool_intervention d anal rec).priority = some (rec.priority.getD "medium") := rfl
  have hfe : (pool_intervention d anal rec).feasibility = some (assess_feasibility rec) := rfl
  have hur : (pool_intervention d anal rec).urgency = some (assess_urgency anal rec) := rfl
  unfold calculate_priority_score
  rw [hmul, hpr, hfe, hur]
  simp only [Option.getD_some, Option.getD_none]
  have hf := feasibility_scores_syn_le (assess_feasibility rec)
  by_cases hcrit : assess_urgency anal rec = "critical"
  · have hp : rec.priority.getD "medium" = "high" := assess_urgency_critical_priority hcrit
    rw [hcrit, hp]
    have h1 : priority_scores "high" = 4 := by decide
    have h2 : urgency_scores "critical" = 4 := by decide
    rw [h1, h2]
    nlinarith
  · have hu := urgency_scores_le_of_ne_critical _ hcrit
    have hp := priority_scores_le (rec.priority.getD "medium")
    nlinarith

/-- A synthetic synergy intervention scores `3.1 *` its multiplier. -/
theorem calculate_priority_score_synergy (s : Synergy) :
    calculate_priority_score (synergy_intervention s) = 3.1 * s.synergy_multiplier := by
  unfold calculate_priority_score synergy_intervention
  simp only [Option.getD_some]
  have h1 : priority_scores "high" = 4 := by decide
  have h2 : feasibility_scores_syn "medium" = 2 := by decide
  have h3 : urgency_scores "high" = 3 := by decide
  rw [h1, h2, h3]
  ring

theorem mem_ite_singleton {α : Type} {y x : α} {c : Prop} [Decidable c]
    (h : y ∈ (if c then [x] else ([] : List α))) : y = x := by
  split at h <;> simp_all

/-- Under the EV/solar rule the synergy list is the EV/solar record followed
by whatever the two other independent rules emit. -/
theorem identify_synergies_ev_solar (a : Analyses)
    (hr : (a.home.energy_patterns.map EnergyPatterns.renewable_energy).getD false = false)
    (hv : (a.transport.transport_patterns.map TransportPatterns.primary_vehicle).getD "sedan" ∈
      (["sedan", "suv", "luxury_car"] : List String)) :
    identify_synergies a = evSolarSynergy ::
      ((if ¬(a.diet.dietary_patterns.map DietaryPatterns.organic_preference).getD false ∨
          ¬(a.shopping.shopping_patterns.map ShoppingPatterns.second_hand_preference).getD false
        then [dietShoppingSynergy] else []) ++
       (if a.transport.efficiency_score.getD 0.5 < 0.6 ∧
          (a.shopping.shopping_patterns.map ShoppingPatterns.shopping_frequency).getD "weekly" =
            "daily"
        then [transportShoppingSynergy] else [])) := by
  unfold identify_synergies
  rw [hr]
  rw [if_pos (⟨by simp, hv⟩ : ¬(false = true) ∧ _)]
  rfl

/-- C9: whenever the home pattern is not renewable and the transport pattern's
primary vehicle is one of the combustion types of the rule (sedan, suv,
luxury_car), `synthesize` emits exactly one synergy of type
`home_transport_ev_solar`, with multiplier 1.5, and the corresponding
synthetic cross-domain intervention — priority "high" — appears in the
returned `prioritized_actions`. -/
theorem C9_ev_solar_synergy (a : Analyses)
    (hr : (a.home.energy_patterns.map EnergyPatterns.renewable_energy).getD false = false)
    (hv : (a.transport.transport_patterns.map TransportPatterns.primary_vehicle).getD "sedan" ∈
      (["sedan", "suv", "luxury_car"] : List String)) :
    ((synthesize a).synergies.filter (fun s => s.type = "home_transport_ev_solar")) =
      [evSolarSynergy] ∧
    evSolarSynergy.synergy_multiplier = 1.5 ∧
    synergy_intervention evSolarSynergy ∈ (synthesize a).prioritized_actions ∧
    (synergy_intervention evSolarSynergy).priority = some "high" ∧
    (synergy_intervention evSolarSynergy).domain = some "cross_domain" := by
  have hsyn := identify_synergies_ev_solar a hr hv
  have hsynfield : (synthesize a).synergies = identify_synergies a := rfl
  have hact : (synthesize a).prioritized_actions =
      prioritize_interventions a (identify_synergies a) := rfl
  refine ⟨?_, rfl, ?_, rfl, rfl⟩
  · rw [hsynfield, hsyn]
    rw [List.filter_cons]
    rw [if_pos (by decide)]
    rw [List.filter_append]
    have h2 : ∀ (c : Prop) [Decidable c],
        List.filter (fun s => decide (s.type = "home_transport_ev_solar"))
          (if c then [dietShoppingSynergy] else []) = [] := by
      intro c _
      split <;> simp [dietShoppingSynergy]
    have h3 : ∀ (c : Prop) [Decidable c],
        List.filter (fun s => decide (s.type = "home_transport_ev_solar"))
          (if c then [transportShoppingSynergy] else []) = [] := by
      intro c _
      split <;> simp [transportShoppingSynergy]
    rw [h2, h3]
    rfl
  · rw [hact]
    unfold prioritize_interventions
    apply mem_take_sortDescBy_of_strict_max calculate_priority_score _ _ ?_ ?_ (by norm_num)
    · unfold all_interventions
      apply List.mem_append_right
      rw [hsyn]
      exact List.mem_map_of_mem synergy_intervention (by simp)
    · intro y hy hne
      have hx : calculate_priority_score (synergy_intervention evSolarSynergy) = 4.65 := by
        rw [calculate_priority_score_synergy]
        norm_num [evSolarSynergy]
      rw [hx]
      unfold all_interventions at hy
      rcases List.mem_append.mp hy with hy | hy
      · rcases List.mem_flatMap.mp hy with ⟨p, _, hyp⟩
        rcases List.mem_map.mp hyp with ⟨rec, _, hrec⟩
        rw [← hrec]
        exact calculate_priority_score_pool_lt _ _ _
      · rcases List.mem_map.mp hy with ⟨s, hs, hys⟩
        rw [hsyn] at hs
        rcases List.mem_cons.mp hs with hs | hs
        · exact absurd (by rw [← hys, hs]) hne
        · rcases List.mem_append.mp hs with hs | hs
          · have := mem_ite_singleton hs
            rw [← hys, this, calculate_priority_score_synergy]
            norm_num [dietShoppingSynergy]
          · have := mem_ite_singleton hs
            rw [← hys, this, calculate_priority_score_synergy]
            norm_num [transportShoppingSynergy]

/-- C9 witness: with default home energy patterns (no renewable energy) and
default transport patterns (sedan), the EV/solar synergy fires exactly once
and its synthetic intervention is among the prioritized actions. -/
theorem C9_ev_solar_synergy_witness :
    ((synthesize { home := { energy_patterns := some {} },
                   transport := { transport_patterns := some {} },
                   diet := {}, shopping := {} }).synergies.filter
        (fun s => s.type = "home_transport_ev_solar")) = [evSolarSynergy] ∧
    evSolarSynergy.synergy_multiplier = 1.5 ∧
    synergy_intervention evSolarSynergy ∈
      (synthesize { home := { energy_patterns := some {} },
                    transport := { transport_patterns := some {} },
                    diet := {}, shopping := {} }).prioritized_actions ∧
    (synergy_intervention evSolarSynergy).priority = some "high" ∧
    (synergy_intervention evSolarSynergy).domain = some "cross_domain" :=
  C9_ev_solar_synergy
    { home := { energy_patterns := some {} },
      transport := { transport_patterns := some {} },
      diet := {}, shopping := {} } (by decide) (by decide)

/-! ### The EcoScore formula (C5) -/

/-- The spec's "domain-weighted efficiency average" (weights 0.25 / 0.35 /
0.25 / 0.15, defaults 0.5), written from the spec's words. -/
def spec_weighted_efficiency_avg (a : Analyses) : ℚ :=
  0.25 * a.home.efficiency_score.getD 0.5 + 0.35 * a.transport.efficiency_score.getD 0.5 +
  0.25 * a.diet.efficiency_score.getD 0.5 + 0.15 * a.shopping.efficiency_score.getD 0.5

/-- The spec's `footprint_score = max(0, 100 - total_footprint/4.8*50)`. -/
def spec_footprint_score (tf : ℚ) : ℚ := max 0 (100 - tf / 4.8 * 50)

/-- The spec's EcoScore expression
`0.6 * weighted_domain_efficiency_avg*100 + 0.4 * footprint_score`. -/
def spec_eco_formula (a : Analyses) (tf : ℚ) : ℚ :=
  0.6 * (spec_weighted_efficiency_avg a * 100) + 0.4 * spec_footprint_score tf

/-- C5 (amended): the synthesizer's eco_score is the spec formula clamped to
[0, 100] **and then rounded to one decimal** (the source's `round(..., 1)`,
which the claim's exact-equality reading omits); in particular it always lies
in [0, 100], also for all-zero and very large footprints. -/
theorem C5_eco_score_formula (a : Analyses) (tf : ℚ) :
    (synthesize a).eco_score = some (calculate_eco_score a (calculate_total_footprint a)) ∧
    calculate_eco_score a tf = pyRound 1 (min 100 (max 0 (spec_eco_formula a tf))) ∧
    0 ≤ calculate_eco_score a tf ∧ calculate_eco_score a tf ≤ 100 := by
  have hw1 : domain_weights "home" = 0.25 := by decide
  have hw2 : domain_weights "transport" = 0.35 := by decide
  have hw3 : domain_weights "diet" = 0.25 := by decide
  have hw4 : domain_weights "shopping" = 0.15 := by decide
  have heq : calculate_eco_score a tf = pyRound 1 (min 100 (max 0 (spec_eco_formula a tf))) := by
    unfold calculate_eco_score
    congr 1
    unfold spec_eco_formula spec_weighted_efficiency_avg spec_footprint_score
    simp only [analysesList, List.map_cons, List.map_nil, List.sum_cons, List.sum_nil,
      hw1, hw2, hw3, hw4]
    ring_nf
  refine ⟨rfl, heq, ?_, ?_⟩
  · rw [heq]
    exact pyRound_nonneg (le_min (by norm_num) (le_max_left 0 _))
  · rw [heq]
    have h100 : min 100 (max 0 (spec_eco_formula a tf)) ≤ ((100 : ℤ) : ℚ) := by
      push_cast
      exact min_le_left _ _
    simpa using pyRound_le_int h100

/-- The concrete analyses of the C5 counterexample: all four efficiencies
0.5; home footprint 1.0, the rest 0. -/
def c5_cex_analyses : Analyses :=
  { home := { carbon_footprint := some 1, efficiency_score := some 0.5 }
    transport := { carbon_footprint := some 0, efficiency_score := some 0.5 }
    diet := { carbon_footprint := some 0, efficiency_score := some 0.5 }
    shopping := { carbon_footprint := some 0, efficiency_score := some 0.5 } }

/-- C5 counterexample: with all four efficiencies 0.5 and a total footprint of
1.0, the code's eco_score is 65.8 while the claim's unrounded formula value is
395/6 = 65.8333…, so the claimed exact equality fails. -/
theorem C5_eco_score_counterexample :
    (synthesize c5_cex_analyses).eco_score = some (329/5) ∧
    min 100 (max 0 (spec_eco_formula c5_cex_analyses (calculate_total_footprint c5_cex_analyses)))
      = 395/6 ∧
    (329/5 : ℚ) ≠ 395/6 := by
  exact ⟨by decide, by decide, by decide⟩

/-! ### The co2_reduction numeric signal (C7) -/

/-- The spec's reading of the numeric signal: the **largest** number found in
the string (0 when none), written from the spec's words. -/
def spec_largest_number (s : String) : ℚ := (scanNums s).foldr max 0

/-- C7 (amended): the numeric signal all three consumers extract from a
`co2_reduction` string — the synthesizer's `total_potential_reduction`
summand, the refinement loop's `impact_prioritization` sort key, and the
evaluator's expected-outcomes CO2 summand — is the **last** number the shared
regex finds in the string (with each site's own default when there is none),
not the largest; for the system's low-to-high range strings (numbers in
nondecreasing order) the last number is an upper bound of them all, which is
how the spec's "upper bound" reading holds on well-formed ranges. -/
theorem C7_co2_signal_is_last_number (a : Intervention) (s : String)
    (acts : List Intervention) :
    (a.co2_reduction = some s →
      synth_co2_value a = (scanNums s).getLastD 0 ∧
      impact_score_key a = (scanNums s).getLastD 0.5 ∧
      eval_outcome_co2_value a = (scanNums s).getLastD 0) ∧
    ((scanNums s).Sorted (· ≤ ·) → ∀ x ∈ scanNums s, x ≤ (scanNums s).getLastD 0) ∧
    (analyze_potential_impact acts).total_potential_reduction =
      pyRound 1 ((acts.map synth_co2_value).sum) ∧
    expected_outcomes_co2_total acts = (acts.map eval_outcome_co2_value).sum := by
  refine ⟨?_, ?_, rfl, rfl⟩
  · intro h
    refine ⟨?_, ?_, ?_⟩ <;> simp [synth_co2_value, impact_score_key, eval_outcome_co2_value, h]
  · intro hs x hx
    exact le_getLastD_of_sorted _ 0 hs x hx

/-- C7 witness: on the range string "2-4 tons/year" all three extractions
yield 4, the numbers are sorted and 4 bounds them. -/
theorem C7_co2_signal_is_last_number_witness :
    ({ co2_reduction := some "2-4 tons/year" } : Intervention).co2_reduction =
        some "2-4 tons/year" ∧
    synth_co2_value { co2_reduction := some "2-4 tons/year" } =
      (scanNums "2-4 tons/year").getLastD 0 ∧
    (scanNums "2-4 tons/year").Sorted (· ≤ ·) ∧
    ∀ x ∈ scanNums "2-4 tons/year", x ≤ (scanNums "2-4 tons/year").getLastD 0 := by
  have h := C7_co2_signal_is_last_number { co2_reduction := some "2-4 tons/year" }
    "2-4 tons/year" []
  exact ⟨rfl, (h.1 rfl).1, by decide, h.2.1 (by decide)⟩

/-- C7 counterexample: on "4-2 tons/year" the extracted signal is the last
number 2, while the largest number in the string is 4. -/
theorem C7_co2_signal_counterexample :
    synth_co2_value { co2_reduction := some "4-2 tons/year" } = 2 ∧
    impact_score_key { co2_reduction := some "4-2 tons/year" } = 2 ∧
    eval_outcome_co2_value { co2_reduction := some "4-2 tons/year" } = 2 ∧
    spec_largest_number "4-2 tons/year" = 4 ∧
    (2 : ℚ) ≠ 4 := by
  exact ⟨by decide, by decide, by decide, by decide, by decide⟩

/-! ### The user-alignment score (C6) -/

theorem alignment_points_of_le_four (ch : UserCharacteristics) (x : Intervention) :
    alignment_points_of ch x ≤ 4 := by
  unfold alignment_points_of
  split_ifs <;> norm_num

/-- C6 (amended): the evaluator's user-alignment score equals the total
number of satisfied (trait, action) rule pairs divided by the number of
actions — `total_points` counts one per action while up to four trait rules
can score on each — so the quotient lies in [0, 4] and is **not** confined to
[0, 1], and it is not the per-pair fraction the claim states. -/
theorem C6_alignment_score_shape (syn : SynthesisResult) (ch : UserCharacteristics)
    (text : String) :
    assess_user_alignment_score syn text =
      calculate_alignment_score syn (extract_user_characteristics text) ∧
    calculate_alignment_score syn ch =
      ((syn.prioritized_actions.map (fun a => alignment_points_of ch a)).sum : ℚ) /
        max (syn.prioritized_actions.length : ℚ) 1 ∧
    0 ≤ calculate_alignment_score syn ch ∧
    calculate_alignment_score syn ch ≤ 4 := by
  refine ⟨rfl, rfl, ?_, ?_⟩
  · unfold calculate_alignment_score
    positivity
  · unfold calculate_alignment_score
    have hsum : (syn.prioritized_actions.map (fun a => alignment_points_of ch a)).sum ≤
        4 * syn.prioritized_actions.length := by
      induction syn.prioritized_actions with
      | nil => simp
      | cons a t ih =>
        simp only [List.map_cons, List.sum_cons, List.length_cons]
        have := alignment_points_of_le_four ch a
        omega
    rw [div_le_iff (by positivity)]
    have h1 : ((syn.prioritized_actions.length : ℚ)) ≤ max (syn.prioritized_actions.length : ℚ) 1 :=
      le_max_left _ _
    have h2 : ((syn.prioritized_actions.map (fun a => alignment_points_of ch a)).sum : ℚ) ≤
        4 * (syn.prioritized_actions.length : ℚ) := by
      exact_mod_cast hsum
    nlinarith

/-- C6 counterexample: a user text activating four traits and a single action
matching all four rules gives alignment score 4, outside [0, 1]. -/
theorem C6_alignment_score_counterexample :
    calculate_alignment_score
      { prioritized_actions := [
          { action := some "Install smart renewable system now"
            cost_impact := some "Low cost savings"
            feasibility := some "high" }] }
      (extract_user_characteristics "budget easy smart eco") = 4 ∧
    ¬((4 : ℚ) ≤ 1) := by
  exact ⟨by decide, by decide⟩

/-! ### The refiner leaves inputs intact except for in-place tips (C3, C10) -/

/-- How a caller-side intervention dict can relate to its post-call state:
untouched, or with `implementation_tips` filled in by `setTips`. -/
def tipsRel (a b : Intervention) : Prop := b = a ∨ b = setTips a

theorem generate_implementation_tips_ne_nil (a : Intervention) :
    generate_implementation_tips a ≠ [] := by
  unfold generate_implementation_tips
  split_ifs <;> simp

theorem tipsEmpty_setTips (a : Intervention) : tipsEmpty (setTips a) = false := by
  unfold setTips
  split_ifs with h1
  · unfold tipsEmpty
    cases hgen : generate_implementation_tips a with
    | nil => exact absurd hgen (generate_implementation_tips_ne_nil a)
    | cons x xs => simp
  · cases h : a.implementation_tips with
    | none => simp [tipsEmpty, h] at h1
    | some l =>
      cases l with
      | nil => simp [tipsEmpty, h] at h1
      | cons x xs => simp [tipsEmpty, h]

theorem setTips_of_not_empty {a : Intervention} (h : tipsEmpty a = false) : setTips a = a := by
  unfold setTips
  rw [h]
  simp

theorem setTips_idem (a : Intervention) : setTips (setTips a) = setTips a :=
  setTips_of_not_empty (tipsEmpty_setTips a)

theorem tipsRel_refl (a : Intervention) : tipsRel a a := Or.inl rfl

theorem tipsRel_setTips {a b : Intervention} (h : tipsRel a b) : tipsRel a (setTips b) := by
  rcases h with h | h
  · subst h
    exact Or.inr rfl
  · subst h
    exact Or.inr (setTips_idem a)

theorem setTips_feasibility (a : Intervention) : (setTips a).feasibility = a.feasibility := by
  unfold setTips
  split <;> rfl

theorem setTips_co2_reduction (a : Intervention) : (setTips a).co2_reduction = a.co2_reduction := by
  unfold setTips
  split <;> rfl

theorem setTips_cost_impact (a : Intervention) : (setTips a).cost_impact = a.cost_impact := by
  unfold setTips
  split <;> rfl

theorem setTips_action (a : Intervention) : (setTips a).action = a.action := by
  unfold setTips
  split <;> rfl

theorem setTips_urgency (a : Intervention) : (setTips a).urgency = a.urgency := by
  unfold setTips
  split <;> rfl

theorem tipsRel_fields {a b : Intervention} (h : tipsRel a b) :
    b.feasibility = a.feasibility ∧ b.co2_reduction = a.co2_reduction ∧
    b.cost_impact = a.cost_impact ∧ b.action = a.action ∧ b.urgency = a.urgency := by
  rcases h with h | h <;> subst h
  · exact ⟨rfl, rfl, rfl, rfl, rfl⟩
  · exact ⟨setTips_feasibility a, setTips_co2_reduction a, setTips_cost_impact a,
      setTips_action a, setTips_urgency a⟩

theorem forall₂_countP_eq {l m : List Intervention} {p : Intervention → Bool}
    (hp : ∀ a b, tipsRel a b → p b = p a) (h : List.Forall₂ tipsRel l m) :
    m.countP p = l.countP p := by
  induction h with
  | nil => rfl
  | cons hab _ ih => simp only [List.countP_cons, ih, hp _ _ hab]

theorem forall₂_map_sum_eq {l m : List Intervention} {f : Intervention → ℚ}
    (hf : ∀ a b, tipsRel a b → f b = f a) (h : List.Forall₂ tipsRel l m) :
    (m.map f).sum = (l.map f).sum := by
  induction h with
  | nil => rfl
  | cons hab _ ih => simp only [List.map_cons, List.sum_cons, ih, hf _ _ hab]

/-- The five quality metrics do not read `implementation_tips`, so they agree
on a list and its post-tips state. -/
theorem assess_plan_quality_tipsRel {l m : List Intervention}
    (h : List.Forall₂ tipsRel l m) : assess_plan_quality m = assess_plan_quality l := by
  have hlen := h.length_eq
  by_cases hl : l = []
  · subst hl
    have hm : m = [] := (List.forall₂_nil_left_iff.mp h)
    subst hm
    rfl
  · have hm : m ≠ [] := by
      intro hc
      subst hc
      exact hl (List.forall₂_nil_right_iff.mp h)
    unfold assess_plan_quality
    rw [if_neg hl, if_neg hm]
    have e1 := forall₂_map_sum_eq
      (f := fun a => feasibility_scores_ref (a.feasibility.getD "medium"))
      (fun a b hab => by simp only [(tipsRel_fields hab).1]) h
    have e2 := forall₂_countP_eq
      (p := fun a => strContains (a.co2_reduction.getD "") "high")
      (fun a b hab => by simp only [(tipsRel_fields hab).2.1]) h
    have e3 := forall₂_countP_eq
      (p := fun a => (containsL "savings".toList (lowerChars (a.cost_impact.getD "")) ∨
        containsL "low".toList (lowerChars (a.cost_impact.getD "")) : Bool))
      (fun a b hab => by simp only [(tipsRel_fields hab).2.2.1]) h
    have e4 := forall₂_countP_eq
      (p := fun a => ((a.action.getD "").length > 20 : Bool))
      (fun a b hab => by simp only [(tipsRel_fields hab).2.2.2.1]) h
    have e5 := forall₂_countP_eq
      (p := fun a => (a.feasibility = some "high" ∧ a.urgency ≠ some "low" : Bool))
      (fun a b hab => by
        simp only [show b.feasibility = a.feasibility from (tipsRel_fields hab).1,
          show b.urgency = a.urgency from (tipsRel_fields hab).2.2.2.2]) h
    rw [e1, e2, e3, e4, e5, hlen]

theorem foldl_preserve {α β : Type} (P : β → Prop) (f : β → α → β)
    (hf : ∀ b a, P b → P (f b a)) : ∀ (l : List α) (b : β), P b → P (l.foldl f b) := by
  intro l
  induction l with
  | nil => exact fun b hb => hb
  | cons a t ih => exact fun b hb => ih (f b a) (hf b a hb)

theorem forall₂_tipsRel_set {l0 m : List Intervention}
    (h : List.Forall₂ tipsRel l0 m) (i : ℕ) :
    List.Forall₂ tipsRel l0 (m.set i (setTips (m.getD i default))) := by
  rw [List.forall₂_iff_get] at h ⊢
  refine ⟨by rw [h.1, List.length_set], ?_⟩
  intro j h1 h2
  simp only [List.get_eq_getElem] at *
  rw [List.getElem_set]
  by_cases hij : i = j
  · subst hij
    rw [if_pos rfl]
    have hi : i < m.length := by
      have := h2
      rw [List.length_set] at this
      exact this
    rw [List.getD_eq_getElem m default hi]
    exact tipsRel_setTips (h.2 i h1 hi)
  · rw [if_neg hij]
    exact h.2 j h1 (by rw [List.length_set] at h2; exact h2)

theorem foldl_preserve_inputs {α : Type} (l0 : List Intervention)
    (f : RefState → α → RefState)
    (hf : ∀ b a, List.Forall₂ tipsRel l0 b.inputs →
      List.Forall₂ tipsRel l0 (f b a).inputs) :
    ∀ (l : List α) (b : RefState), List.Forall₂ tipsRel l0 b.inputs →
      List.Forall₂ tipsRel l0 (l.foldl f b).inputs := by
  intro l
  induction l with
  | nil => exact fun b hb => hb
  | cons a t ih => exact fun b hb => ih (f b a) (hf b a hb)

theorem apply_learning_refinement_inputs_rel {l0 : List Intervention} (st : RefState)
    (h : List.Forall₂ tipsRel l0 st.inputs) :
    List.Forall₂ tipsRel l0 (apply_learning_refinement st).inputs := by
  unfold apply_learning_refinement
  apply foldl_preserve_inputs l0 _ ?_ _ _ h
  intro b j hP
  rcases hcell : b.plan.getD j (PCell.fresh default) with i | v
  · simpa [hcell] using forall₂_tipsRel_set hP i
  · simpa [hcell] using hP

/-- Through every refinement strategy, the caller's intervention list keeps
its length and order, and each entry is either untouched or merely annotated
with implementation tips. -/
theorem apply_refinements_inputs_rel (syn : SynthesisResult)
    (opps : List RefinementOpportunity) :
    List.Forall₂ tipsRel syn.prioritized_actions (apply_refinements syn opps).inputs := by
  unfold apply_refinements
  apply foldl_preserve_inputs syn.prioritized_actions _ ?_
  · exact List.forall₂_same.mpr (fun x _ => tipsRel_refl x)
  · intro st opp hP
    split_ifs
    · exact hP
    · exact hP
    · exact hP
    · exact hP
    · exact apply_learning_refinement_inputs_rel st hP
    · exact hP

/-- C10 (amended): `refine_plan` never changes the length or order of the
caller's `prioritized_actions` list, and each Intervention record inside it is
either untouched or — when an `adaptive_learning` pass runs over a dict still
shared with the caller — annotated in place with `implementation_tips`; the
core action/impact fields are never modified.  The claim's "passed by value"
reading fails only by those in-place tips annotations. -/
theorem C10_refine_plan_frame (syn : SynthesisResult) (hist : List RefinementRecord) :
    List.Forall₂ tipsRel syn.prioritized_actions (refine_plan syn hist).2 ∧
    (refine_plan syn hist).2.length = syn.prioritized_actions.length ∧
    ∀ a b, tipsRel a b →
      b.action = a.action ∧ b.co2_reduction = a.co2_reduction ∧
      b.cost_impact = a.cost_impact ∧ b.feasibility = a.feasibility ∧
      b.urgency = a.urgency := by
  have hrel : List.Forall₂ tipsRel syn.prioritized_actions (refine_plan syn hist).2 :=
    apply_refinements_inputs_rel syn _
  refine ⟨hrel, hrel.length_eq.symm, ?_⟩
  intro a b hab
  have hfields := tipsRel_fields hab
  exact ⟨hfields.2.2.2.1, hfields.2.1, hfields.2.2.1, hfields.1, hfields.2.2.2.2⟩

/-- The single action of the C10 counterexample: all four quality metrics at
their maximum, so only history-driven adaptive learning fires. -/
def c10_cex_action : Intervention :=
  { action := some "Keep using the efficient plan"
    co2_reduction := some "high 2 tons"
    cost_impact := some "Low cost"
    feasibility := some "high" }

def c10_cex_syn : SynthesisResult := { prioritized_actions := [c10_cex_action] }

/-- A history record whose opportunity type recurs, triggering
`adaptive_learning`. -/
def c10_cex_record : RefinementRecord :=
  { refinement_opportunities := [
      { type := "cost_optimization"
        description := ""
        target_actions := []
        refinement_strategy := "cost_benefit_reordering" }] }

/-- C10 counterexample: with a recurring history issue, `refine_plan` writes
`implementation_tips` into the caller's intervention dict — the input's
`prioritized_actions` are not unchanged after the call. -/
theorem C10_refine_plan_frame_counterexample :
    (refine_plan c10_cex_syn [c10_cex_record, c10_cex_record]).2 ≠
      c10_cex_syn.prioritized_actions ∧
    ((refine_plan c10_cex_syn [c10_cex_record, c10_cex_record]).2.getD 0
        default).implementation_tips ≠
      (c10_cex_syn.prioritized_actions.getD 0 default).implementation_tips := by
  exact ⟨by decide, by decide⟩

/-- C3: the refinement record returned by `refine_plan` satisfies
`validation_passed ↔ overall_improvement > 0` and
`significant_improvement ↔ overall_improvement > 0.1`, and
`overall_improvement` is the mean over the five quality metrics of the metric
recomputed on the refined plan minus the same metric on the input plan (the
input's metrics are unaffected by the in-place tips annotations). -/
theorem C3_validation_passed_by_construction (syn : SynthesisResult)
    (hist : List RefinementRecord) :
    ((refine_plan syn hist).1.improvement_validation.validation_passed = true ↔
      (refine_plan syn hist).1.improvement_validation.overall_improvement > 0) ∧
    ((refine_plan syn hist).1.improvement_validation.significant_improvement = true ↔
      (refine_plan syn hist).1.improvement_validation.overall_improvement > 0.1) ∧
    (refine_plan syn hist).1.improvement_validation.overall_improvement =
      qualityDeltaSum (assess_plan_quality syn.prioritized_actions)
        (assess_plan_quality ((refine_plan syn hist).1.refined_plan.prioritized_actions)) / 5 := by
  refine ⟨decide_eq_true_iff, decide_eq_true_iff, ?_⟩
  have hrel := apply_refinements_inputs_rel syn
    (identify_refinement_opportunities syn hist (assess_plan_quality syn.prioritized_actions))
  have hass := assess_plan_quality_tipsRel hrel
  show qualityDeltaSum (assess_plan_quality _) (assess_plan_quality _) / 5 = _
  rw [hass]
  rfl

/-! ## C8: end-to-end scenario with "vegan", "bike", no car keywords -/

/-- The scenario input of the first end-to-end example. -/
def c8_text : String := "vegan, bike to work, tokyo"

/-- Analyses built from the real transport and diet experts on the given text,
with the two domains the scenario leaves unspecified held fixed at the
workflow's fallback analyses for both sides of the comparison. -/
def c8_analyses (t : String) : Analyses :=
  { home := fallback_home_analysis
    transport := transport_analyze t
    diet := diet_analyze t
    shopping := fallback_shopping_analysis }

set_option maxRecDepth 16000 in
/-- C8: on "vegan, bike to work, tokyo" the diet footprint (0.25 t) is indeed
below the keyword-free omnivore baseline (0.66 t) and the eco score does exceed
the baseline's, but the vehicle component of the transport footprint is NOT
approximately zero: the substring "bike" is listed among the MOTORCYCLE
keywords, so the primary vehicle is classified as "motorcycle" (factor 0.15
kg/km) and the annual vehicle emissions come to 1.6425 t — even though the
emission-factor table itself maps "bike" to 0 (that entry is unreachable from
keyword detection). -/
theorem C8_bike_classified_as_motorcycle :
    calculate_diet_carbon_footprint (analyze_dietary_patterns c8_text) = 0.25 ∧
    calculate_diet_carbon_footprint (analyze_dietary_patterns "") = 0.66 ∧
    calculate_eco_score (c8_analyses c8_text) (calculate_total_footprint (c8_analyses c8_text)) >
      calculate_eco_score (c8_analyses "") (calculate_total_footprint (c8_analyses "")) ∧
    (analyze_transport_patterns c8_text).primary_vehicle = "motorcycle" ∧
    annual_vehicle_emissions (analyze_transport_patterns c8_text) = 1.6425 ∧
    (1 : ℚ) ≤ annual_vehicle_emissions (analyze_transport_patterns c8_text) ∧
    emission_factors "bike" = 0 := by
  exact ⟨by decide, by decide, by decide, by decide, by decide, by decide, by decide⟩
